import Mathlib

/-
Verification of the schema-validation / consistency-checking core of
`scripts/lint_yaml.py` (the "people" data linter).

The untyped YAML record trees are embedded as the inductive `Value`; Python
exceptions are embedded as `Except PyErr`; the per-batch validator state is
threaded explicitly.  Each `def` below translates one function (or one loop
of a function) of `scripts/lint_yaml.py`; deviations forced by the embedding
are noted in comments at the definition they concern.

Global modelling notes:
- Python dicts are association lists in insertion order; keys in real data are
  unique, so first-match lookup is the dict lookup.  Hashability of dict keys
  is not modelled (all embedded dict operations compare keys structurally).
- Python regular expressions are hand-compiled to decidable character-list
  functions; `\d` and `\w` are modelled as their ASCII subsets.
- State mutated before an exception is raised is discarded by the `Except`
  embedding; no claim observes post-exception validator state.
-/

/-- An untyped decoded YAML value (the Python object tree fed to the linter):
strings, ints, booleans, `datetime.date` values (kept as their ISO string),
`None`, lists and string-keyed dicts. -/
inductive Value where
  | str (s : String)
  | int (n : Int)
  | bool (b : Bool)
  | date (iso : String)
  | vnone
  | vlist (elems : List Value)
  | vmap (fields : List (String × Value))
deriving Repr

/-- Structural equality of Python values (the `==` used by dict/list membership).
Ignores Python's numeric cross-type equalities (`True == 1`), which never arise
in this data. -/
def Value.beq : Value → Value → Bool
  | .str a, .str b => a == b
  | .int a, .int b => a == b
  | .bool a, .bool b => a == b
  | .date a, .date b => a == b
  | .vnone, .vnone => true
  | .vlist a, .vlist b => beqElems a b
  | .vmap a, .vmap b => beqFields a b
  | _, _ => false
where
  beqElems : List Value → List Value → Bool
    | [], [] => true
    | a :: as, b :: bs => Value.beq a b && beqElems as bs
    | _, _ => false
  beqFields : List (String × Value) → List (String × Value) → Bool
    | [], [] => true
    | (k, v) :: as, (l, w) :: bs => k == l && Value.beq v w && beqFields as bs
    | _, _ => false

instance : BEq Value := ⟨Value.beq⟩

/-- A Python exception escaping the translated code. -/
inductive PyErr where
  | valueError (msg : String)
  | keyError (key : String)
  | indexError
  | typeError (msg : String)
  | attributeError (attr : String)
  | badVacancy
deriving Repr, DecidableEq

instance {ε α : Type} [DecidableEq ε] [DecidableEq α] : DecidableEq (Except ε α)
  | .error e, .error f =>
      if h : e = f then .isTrue (congrArg Except.error h)
      else .isFalse (fun hh => h (Except.error.inj hh))
  | .error _, .ok _ => .isFalse (fun hh => Except.noConfusion hh)
  | .ok _, .error _ => .isFalse (fun hh => Except.noConfusion hh)
  | .ok x, .ok y =>
      if h : x = y then .isTrue (congrArg Except.ok h)
      else .isFalse (fun hh => h (Except.ok.inj hh))

/-- Substring containment on character lists (Python `needle in haystack` for
strings): some suffix of the haystack starts with the needle. -/
def containsSub (needle : List Char) : List Char → Bool
  | [] => needle.isEmpty
  | c :: rest => needle.isPrefixOf (c :: rest) || containsSub needle rest

/-- ASCII lowercasing of one character (`str.lower`; non-ASCII case mapping is
irrelevant here because every consumer treats non-ASCII characters uniformly). -/
def asciiLower (c : Char) : Char :=
  if 'A' ≤ c && c ≤ 'Z' then Char.ofNat (c.toNat + 32) else c

/-- Python `str.lower` on a character list. -/
def lowerChars (cs : List Char) : List Char := cs.map asciiLower

/-- Python `s.split(sep)` for a one-character separator, keeping empty pieces
(Python `str.split` with an explicit separator). -/
def splitOnCh (sep : Char) : List Char → List (List Char)
  | [] => [[]]
  | c :: rest =>
      let r := splitOnCh sep rest
      if c == sep then [] :: r
      else
        match r with
        | [] => [[c]]
        | g :: gs => (c :: g) :: gs

/-- Python `sep.join(strings)`. -/
def joinWith (sep : String) : List String → String
  | [] => ""
  | [s] => s
  | s :: rest => s ++ sep ++ joinWith sep rest

/-- The single-quote character, used by Python `repr` of strings. -/
def sQuote : String := String.mk [Char.ofNat 39]

/-- Python `repr` of a value (used when formatting containers into messages).
String escaping inside `repr`, and the exact `datetime.date(y, m, d)` repr of
structured dates, are not modelled (no message under test contains them). -/
def pyRepr : Value → String
  | .str s => sQuote ++ s ++ sQuote
  | .int n => toString n
  | .bool b => if b then "True" else "False"
  | .date iso => "datetime.date(" ++ iso ++ ")"
  | .vnone => "None"
  | .vlist l => "[" ++ reprElems l ++ "]"
  | .vmap m => "\x7b" ++ reprFields m ++ "\x7d"
where
  reprElems : List Value → String
    | [] => ""
    | [v] => pyRepr v
    | v :: rest => pyRepr v ++ ", " ++ reprElems rest
  reprFields : List (String × Value) → String
    | [] => ""
    | [(k, v)] => sQuote ++ k ++ sQuote ++ ": " ++ pyRepr v
    | (k, v) :: rest => sQuote ++ k ++ sQuote ++ ": " ++ pyRepr v ++ ", " ++ reprFields rest

/-- Python `str()` of a value, as used by f-string interpolation in error
messages.  `str` of a string is the string itself; containers fall back to
their `repr`. -/
def pyStr : Value → String
  | .str s => s
  | .int n => toString n
  | .bool b => if b then "True" else "False"
  | .date iso => iso
  | .vnone => "None"
  | .vlist l => pyRepr (.vlist l)
  | .vmap m => pyRepr (.vmap m)

/-- First-match association-list lookup: Python dict lookup (keys unique). -/
def lookupStr : List (String × Value) → String → Option Value
  | [], _ => none
  | (k2, v) :: rest, k => if k2 == k then some v else lookupStr rest k

/-- Python `obj.get(key, default)`: `AttributeError` when `obj` is not a dict. -/
def pyGetDefault (v : Value) (k : String) (dflt : Value) : Except PyErr Value :=
  match v with
  | .vmap m => .ok ((lookupStr m k).getD dflt)
  | _ => .error (.attributeError "get")

/-- Python `obj.get(key)` (default `None`). -/
def pyGet (v : Value) (k : String) : Except PyErr Value :=
  pyGetDefault v k .vnone

/-- Python `obj[key]` with a string key: `KeyError` when the key is absent,
`TypeError` when `obj` is not a dict. -/
def Value.getItem (v : Value) (k : String) : Except PyErr Value :=
  match v with
  | .vmap m =>
      match lookupStr m k with
      | some x => .ok x
      | none => .error (.keyError k)
  | _ => .error (.typeError "not subscriptable")

/-- Python `obj.items()`: `AttributeError` when `obj` is not a dict. -/
def pyItems : Value → Except PyErr (List (String × Value))
  | .vmap m => .ok m
  | _ => .error (.attributeError "items")

/-- Python iteration (`for x in obj`): lists yield elements, strings yield
their characters, dicts yield their keys, everything else raises `TypeError`. -/
def pyIter : Value → Except PyErr (List Value)
  | .vlist l => .ok l
  | .str s => .ok (s.toList.map (fun c => .str (String.mk [c])))
  | .vmap m => .ok (m.map (fun p => .str p.1))
  | _ => .error (.typeError "not iterable")

/-- The Python `in` operator: key membership on dicts, element membership on
lists, substring test on strings. -/
def pyIn (needle container : Value) : Except PyErr Bool :=
  match container with
  | .vmap m => .ok (m.any (fun p => needle == Value.str p.1))
  | .vlist l => .ok (l.any (fun x => x == needle))
  | .str s =>
      match needle with
      | .str n => .ok (containsSub n.toList s.toList)
      | _ => .error (.typeError "in requires str")
  | _ => .error (.typeError "not a container")

/-- Python truthiness of a value. -/
def Value.truthy : Value → Bool
  | .str s => !s.isEmpty
  | .int n => n != 0
  | .bool b => b
  | .date _ => true
  | .vnone => false
  | .vlist l => !l.isEmpty
  | .vmap m => !m.isEmpty

/-! ### The regular expressions of lint_yaml.py, compiled by hand -/

/-- Python `SUFFIX_RE = (iii?)|(i?v)|((ed|ph|m|o)\.?d\.?)|([sj]r\.?)|(esq\.?)`, case
insensitive, used through `findall` (so only existence of a match matters).
A match exists iff one of these minimal cores occurs as a substring of the
lowercased input (trailing optional dots never affect existence). -/
def suffixTokens : List String :=
  ["ii", "v", "edd", "ed.d", "phd", "ph.d", "md", "m.d", "od", "o.d", "sr", "jr", "esq"]

/-- Python `bool(SUFFIX_RE.findall(s))` on the characters of `s`. -/
def hasSuffixMatch (cs : List Char) : Bool :=
  suffixTokens.any (fun t => containsSub t.toList (lowerChars cs))

/-- Python `DATE_RE = ^\d{4}(-\d{2}(-\d{2})?)?$` (callers exclude newlines first,
so the `$`-before-trailing-newline quirk never fires). -/
def date_re (s : String) : Bool :=
  match s.toList with
  | [a, b, c, d] => [a, b, c, d].all Char.isDigit
  | [a, b, c, d, '-', e, f] => [a, b, c, d, e, f].all Char.isDigit
  | [a, b, c, d, '-', e, f, '-', g, h] => [a, b, c, d, e, f, g, h].all Char.isDigit
  | _ => false

/-- Tail of `PHONE_RE`: `( ext. \d+)?$`.  The `.` of `" ext. "` is the regex
wildcard (any character but a newline). -/
def phoneExt : List Char → Bool
  | [] => true
  | ' ' :: 'e' :: 'x' :: 't' :: w :: ' ' :: ds =>
      w != '\n' && !ds.isEmpty && ds.all Char.isDigit
  | _ => false

/-- Body of `PHONE_RE`: `\d{3}-\d{3}-\d{4}( ext. \d+)?$`. -/
def phoneBody : List Char → Bool
  | d1 :: d2 :: d3 :: '-' :: e1 :: e2 :: e3 :: '-' :: f1 :: f2 :: f3 :: f4 :: rest =>
      [d1, d2, d3, e1, e2, e3, f1, f2, f3, f4].all Char.isDigit && phoneExt rest
  | _ => false

/-- Python `PHONE_RE = ^(1-)?\d{3}-\d{3}-\d{4}( ext. \d+)?$`.  When the input starts
with `1-` the optional group must be taken (backtracking to the bare body
cannot succeed because `-` is not a digit). -/
def phone_re (s : String) : Bool :=
  match s.toList with
  | '1' :: '-' :: rest => phoneBody rest
  | cs => phoneBody cs

/-- Python `\w` (ASCII subset, see file header). -/
def isWordChar (c : Char) : Bool := c.isAlphanum || c == '_'

/-- Consume a literal, returning the remaining characters. -/
def eatLit (lit : String) (cs : List Char) : Option (List Char) :=
  if lit.toList.isPrefixOf cs then some (cs.drop lit.toList.length) else none

/-- Lowercase hex digit, for the UUID groups. -/
def isHexLower (c : Char) : Bool := c.isDigit || ('a' ≤ c && c ≤ 'f')

/-- Consume exactly `n` lowercase hex digits. -/
def hexRun : Nat → List Char → Option (List Char)
  | 0, cs => some cs
  | n + 1, c :: rest => if isHexLower c then hexRun n rest else none
  | _ + 1, [] => none

/-- Consume a literal dash. -/
def eatDash : List Char → Option (List Char)
  | '-' :: r => some r
  | _ => none

/-- Python `UUID_RE = ^ocd-\w+/[0-9a-f]{8}-[0-9a-f]{4}-[0-9a-f]{4}-[0-9a-f]{4}-[0-9a-f]{12}$`.
`\w+` is maximal-munch (it cannot contain `/`). -/
def uuid_re (s : String) : Bool :=
  match eatLit "ocd-" s.toList with
  | none => false
  | some cs =>
    let w := cs.takeWhile isWordChar
    let rest := cs.dropWhile isWordChar
    if w.isEmpty then false
    else
      match rest with
      | '/' :: cs2 =>
          (do
            let a ← hexRun 8 cs2
            let a ← eatDash a
            let a ← hexRun 4 a
            let a ← eatDash a
            let a ← hexRun 4 a
            let a ← eatDash a
            let a ← hexRun 4 a
            let a ← eatDash a
            hexRun 12 a) == some []
      | _ => false

/-- The optional `((place|county):[a-z_]+/)?government` tail of
`JURISDICTION_RE`; when the optional group fails midway the engine backtracks
to matching `government` directly (used with `re.match`, trailing input is
allowed). -/
def govTail (cs : List Char) : Bool :=
  let lowRun : Char → Bool := fun c => ('a' ≤ c && c ≤ 'z') || c == '_'
  match eatLit "place:" cs <|> eatLit "county:" cs with
  | some cs2 =>
      let run := cs2.takeWhile lowRun
      let rest := cs2.dropWhile lowRun
      if !run.isEmpty then
        match rest with
        | '/' :: cs3 => (eatLit "government" cs3).isSome || (eatLit "government" cs).isSome
        | _ => (eatLit "government" cs).isSome
      else (eatLit "government" cs).isSome
  | none => (eatLit "government" cs).isSome

/-- Python `JURISDICTION_RE.match`: anchored at the start only, pattern
`ocd-jurisdiction/country:us/(state|district|territory):\w\w/((place|county):[a-z_]+/)?government`. -/
def jurisdiction_re (s : String) : Bool :=
  match eatLit "ocd-jurisdiction/country:us/" s.toList with
  | none => false
  | some cs =>
    match eatLit "state:" cs <|> eatLit "district:" cs <|> eatLit "territory:" cs with
    | none => false
    | some cs1 =>
      match cs1 with
      | a :: b :: '/' :: cs2 => isWordChar a && isWordChar b && govTail cs2
      | _ => false

/-- Python `LEGACY_OS_ID_RE.match`: `[A-Z]{2}L\d{6}` anchored at the start only
(trailing input allowed). -/
def legacy_os_id_re (s : String) : Bool :=
  match s.toList with
  | a :: b :: 'L' :: d1 :: d2 :: d3 :: d4 :: d5 :: d6 :: _ =>
      a.isUpper && b.isUpper && [d1, d2, d3, d4, d5, d6].all Char.isDigit
  | _ => false

/-! ### Predicate library -/

def is_dict : Value → Bool
  | .vmap _ => true
  | _ => false

/-- Scalar string: a string with no embedded newline. -/
def is_string : Value → Bool
  | .str s => !(s.toList.contains '\n')
  | _ => false

def is_multiline_string : Value → Bool
  | .str _ => true
  | _ => false

/-- Python `val.startswith(tuple)` for string values (false on non-strings; callers
guard with `is_string` first, matching the source's short-circuit). -/
def strStartsWithAny (v : Value) (ps : List String) : Bool :=
  match v with
  | .str s => ps.any (fun p => p.toList.isPrefixOf s.toList)
  | _ => false

def is_url (v : Value) : Bool :=
  is_string v && strStartsWithAny v ["http://", "https://", "ftp://"]

/-- NOTE: the source really does omit `ftp://` here. -/
def is_social (v : Value) : Bool :=
  is_string v && !strStartsWithAny v ["http://", "https://", "@"]

/-- Python `no_bad_comma` on the underlying string (the caller raises on non-strings,
mirroring `val.split` on a non-string). -/
def no_bad_comma (s : String) : Bool :=
  let pieces := splitOnCh ',' s.toList
  if pieces.length == 1 then true
  else if pieces.length > 2 then false
  else hasSuffixMatch (pieces.getD 1 [])

def is_fuzzy_date : Value → Bool
  | .date _ => true
  | .str s => !(s.toList.contains '\n') && date_re s
  | _ => false

def is_phone (v : Value) : Bool :=
  is_string v && (match v with | .str s => phone_re s | _ => false)

def is_ocd_jurisdiction (v : Value) : Bool :=
  is_string v && (match v with | .str s => jurisdiction_re s | _ => false)

def is_ocd_person (v : Value) : Bool :=
  is_string v && strStartsWithAny v ["ocd-person/"] &&
    (match v with | .str s => uuid_re s | _ => false)

def is_ocd_organization (v : Value) : Bool :=
  is_string v && strStartsWithAny v ["ocd-organization/"] &&
    (match v with | .str s => uuid_re s | _ => false)

def is_legacy_openstates (v : Value) : Bool :=
  is_string v && (match v with | .str s => legacy_os_id_re s | _ => false)

def is_valid_parent (v : Value) : Bool :=
  v == .str "upper" || v == .str "lower" || v == .str "legislature" ||
    is_ocd_organization v

/-- A leaf predicate as it appears in a schema's validator list.  `required`
is the `Required` marker class; `enumOf` is an instance of the source's
callable `Enum` wrapper. -/
inductive LeafPred where
  | required
  | isDictP | isStringP | isMultilineStringP | isUrlP | isSocialP
  | isFuzzyDateP | isPhoneP | isOcdJurisdictionP | isOcdPersonP
  | isOcdOrganizationP | isLegacyOpenstatesP | noBadCommaP | isValidParentP
  | enumOf (values : List String)
deriving Repr, DecidableEq

/-- Run one predicate on a present value.  Only `no_bad_comma` can raise (it
calls `.split` on its argument without an `isinstance` guard). -/
def applyPred : LeafPred → Value → Except PyErr Bool
  | .required, _ => .ok true   -- never run: the caller skips the marker
  | .isDictP, v => .ok (is_dict v)
  | .isStringP, v => .ok (is_string v)
  | .isMultilineStringP, v => .ok (is_multiline_string v)
  | .isUrlP, v => .ok (is_url v)
  | .isSocialP, v => .ok (is_social v)
  | .isFuzzyDateP, v => .ok (is_fuzzy_date v)
  | .isPhoneP, v => .ok (is_phone v)
  | .isOcdJurisdictionP, v => .ok (is_ocd_jurisdiction v)
  | .isOcdPersonP, v => .ok (is_ocd_person v)
  | .isOcdOrganizationP, v => .ok (is_ocd_organization v)
  | .isLegacyOpenstatesP, v => .ok (is_legacy_openstates v)
  | .noBadCommaP, v =>
      match v with
      | .str s => .ok (no_bad_comma s)
      | _ => .error (.attributeError "split")
  | .isValidParentP, v => .ok (is_valid_parent v)
  | .enumOf vals, v =>
      .ok (is_string v && (match v with | .str s => vals.contains s | _ => false))

/-- Python tuple `repr`, for the display name of `Enum` (only used with two or
more values, so the singleton trailing comma is not modelled). -/
def tupleRepr (vals : List String) : String :=
  "(" ++ joinWith ", " (vals.map (fun v => sQuote ++ v ++ sQuote)) ++ ")"

/-- Python `validator.__name__`, as interpolated into failure messages. -/
def predName : LeafPred → String
  | .required => "Required"
  | .isDictP => "is_dict"
  | .isStringP => "is_string"
  | .isMultilineStringP => "is_multiline_string"
  | .isUrlP => "is_url"
  | .isSocialP => "is_social"
  | .isFuzzyDateP => "is_fuzzy_date"
  | .isPhoneP => "is_phone"
  | .isOcdJurisdictionP => "is_ocd_jurisdiction"
  | .isOcdPersonP => "is_ocd_person"
  | .isOcdOrganizationP => "is_ocd_organization"
  | .isLegacyOpenstatesP => "is_legacy_openstates"
  | .noBadCommaP => "no_bad_comma"
  | .isValidParentP => "is_valid_parent"
  | .enumOf vals => "Enum" ++ tupleRepr vals

/-! ### Schema nodes and the static schema tables -/

/-- A schema node as it appears as the value of one declared field:
a plain list of predicates (`preds`, possibly containing the `Required`
marker), a nested dict schema (`nestedDict`), a `NestedList` with a dict
subschema (`nestedList`), or the one `NestedList(is_role)` occurrence, whose
function subschema dispatches between the two role field tables carried here
(`nestedListIsRole`). -/
inductive Validators where
  | preds (ps : List LeafPred)
  | nestedDict (fields : List (String × Validators))
  | nestedList (sub : List (String × Validators))
  | nestedListIsRole (leg exec : List (String × Validators))
deriving Repr

/-- A schema: the ordered field → validators mapping. -/
abbrev Schema := List (String × Validators)

def URL_LIST : Validators :=
  .nestedList [("note", .preds [.isStringP]), ("url", .preds [.isUrlP, .required])]

def CONTACT_DETAILS : Validators :=
  .nestedList
    [("note", .preds [.enumOf ["District Office", "Capitol Office", "Primary Office"], .required]),
     ("address", .preds [.isStringP]),
     ("voice", .preds [.isPhoneP]),
     ("fax", .preds [.isPhoneP])]

def LEGISLATIVE_ROLE_FIELDS : Schema :=
  [("type", .preds [.isStringP, .required]),
   ("district", .preds [.isStringP, .required]),
   ("jurisdiction", .preds [.isOcdJurisdictionP, .required]),
   ("start_date", .preds [.isFuzzyDateP]),
   ("end_date", .preds [.isFuzzyDateP]),
   ("end_reason", .preds [.isStringP]),
   ("contact_details", CONTACT_DETAILS)]

def EXECUTIVE_ROLE_FIELDS : Schema :=
  [("type", .preds [.isStringP, .required]),
   ("jurisdiction", .preds [.isOcdJurisdictionP, .required]),
   ("start_date", .preds [.isFuzzyDateP]),
   ("end_date", .preds [.isFuzzyDateP, .required]),
   ("contact_details", CONTACT_DETAILS)]

def PERSON_FIELDS : Schema :=
  [("id", .preds [.isOcdPersonP, .required]),
   ("name", .preds [.isStringP, .noBadCommaP, .required]),
   ("sort_name", .preds [.isStringP]),
   ("given_name", .preds [.isStringP]),
   ("family_name", .preds [.isStringP]),
   ("middle_name", .preds [.isStringP]),
   ("email", .preds [.isStringP]),
   ("suffix", .preds [.isStringP]),
   ("gender", .preds [.isStringP]),
   ("biography", .preds [.isMultilineStringP]),
   ("birth_date", .preds [.isFuzzyDateP]),
   ("death_date", .preds [.isFuzzyDateP]),
   ("image", .preds [.isUrlP]),
   ("contact_details", CONTACT_DETAILS),
   ("links", URL_LIST),
   ("ids", .nestedDict
     [("twitter", .preds [.isSocialP]),
      ("youtube", .preds [.isSocialP]),
      ("instagram", .preds [.isSocialP]),
      ("facebook", .preds [.isSocialP]),
      ("legacy_openstates", .preds [.isLegacyOpenstatesP])]),
   ("other_identifiers", .nestedList
     [("identifier", .preds [.isStringP, .required]),
      ("scheme", .preds [.isStringP, .required]),
      ("start_date", .preds [.isFuzzyDateP]),
      ("end_date", .preds [.isFuzzyDateP])]),
   ("other_names", .nestedList
     [("name", .preds [.isStringP, .required]),
      ("start_date", .preds [.isFuzzyDateP]),
      ("end_date", .preds [.isFuzzyDateP])]),
   ("sources", URL_LIST),
   ("party", .nestedList
     [("name", .preds [.isStringP, .required]),
      ("start_date", .preds [.isFuzzyDateP]),
      ("end_date", .preds [.isFuzzyDateP])]),
   ("roles", .nestedListIsRole LEGISLATIVE_ROLE_FIELDS EXECUTIVE_ROLE_FIELDS),
   ("extras", .preds [.isDictP])]

/-! ### The schema validator -/

/-- Python `Required in validators` for a predicate list. -/
def hasRequired : List LeafPred → Bool
  | [] => false
  | .required :: _ => true
  | _ :: rest => hasRequired rest

/-- Python `".".join(prefix)`. -/
def joinDots : List String → String
  | [] => ""
  | [s] => s
  | s :: rest => s ++ "." ++ joinDots rest

/-- Python `".".join(prefix) + "."` when the prefix list is non-empty, else `""`
(lint_yaml.py:249-252). -/
def prefixString (pfx : List String) : String :=
  if pfx.isEmpty then "" else joinDots pfx ++ "."

/-- The `for validator in validators` loop over a present value
(lint_yaml.py:266-274): skip the `Required` marker, run each predicate in
order, emit a failure message per failing predicate. -/
def runPreds (ps : List LeafPred) (value : Value) (pstr fld : String) : Except PyErr (List String) :=
  match ps with
  | [] => .ok []
  | .required :: rest => runPreds rest value pstr fld
  | p :: rest => do
      let ok ← applyPred p value
      let tail ← runPreds rest value pstr fld
      pure ((if ok then []
             else [pstr ++ fld ++ " failed validation " ++ predName p ++ ": " ++ pyStr value]) ++ tail)

/-- The closing `set(obj.keys()) - set(schema.keys())` check of `validate_obj`
(lint_yaml.py:295-296).  A Python set iterates in unspecified order (the spec
forbids depending on it); this embedding fixes the record's key-insertion
order.  Real dicts have unique keys, so no deduplication is needed.  When the
schema is empty the dict check of the loop never ran, so `obj.keys()` itself
can raise on a non-dict. -/
def extraKeyErrors (obj : Value) (schema : Schema) (pstr : String) : Except PyErr (List String) :=
  match obj with
  | .vmap m =>
      .ok (((m.map Prod.fst).filter (fun k => !(schema.map Prod.fst).contains k)).map
        (fun k => "extra key: " ++ pstr ++ k))
  | _ => .error (.attributeError "keys")

/-- Sequence a list of already-computed per-iteration results, stopping at the
first exception.  Since each element is a pure value this equals the source's
sequential loop. -/
def exceptConcat : List (Except PyErr (List String)) → Except PyErr (List String)
  | [] => .ok []
  | r :: rest => do
      let x ← r
      let xs ← exceptConcat rest
      pure (x ++ xs)

/-- Python `role_type in ("upper", "lower", "legislature")`. -/
def isLegislativeType (rt : Value) : Bool :=
  rt == .str "upper" || rt == .str "lower" || rt == .str "legislature"

/-- Python `role_type in ("governor", "lt_governor", "mayor", "chief election officer",
"secretary of state")`. -/
def isExecutiveType (rt : Value) : Bool :=
  rt == .str "governor" || rt == .str "lt_governor" || rt == .str "mayor" ||
    rt == .str "chief election officer" || rt == .str "secretary of state"

/-- Handling of one absent field (lint_yaml.py:260-264): an error iff the
validators are a predicate list containing `Required`; no recursion ever. -/
def fieldMissing (fld : String) (vals : Validators) (pstr : String) : Except PyErr (List String) :=
  match vals with
  | .preds ps => if hasRequired ps then .ok [pstr ++ fld ++ " missing"] else .ok []
  | _ => .ok []

mutual

/-- The `for field, validators in schema.items()` loop of `validate_obj`
(lint_yaml.py:254-292): raises `ValueError` as soon as an iteration starts
with a non-dict `obj` (the dead `continue` after the `raise` is unreachable),
otherwise accumulates each field's errors in declaration order. -/
def goFields (obj : Value) (fields : Schema) (pstr : String) : Except PyErr (List String) :=
  match fields with
  | [] => .ok []
  | (fld, vals) :: rest =>
      match obj with
      | .vmap m => do
          let errs ←
            match lookupStr m fld with
            | none => fieldMissing fld vals pstr
            | some value => fieldPresent value vals fld pstr
          let tail ← goFields (.vmap m) rest pstr
          pure (errs ++ tail)
      | _ => .error (.valueError (pstr ++ " is not a dictionary"))

/-- Dispatch on the validators of a present value: the `isinstance` chain of
`validate_obj` (lint_yaml.py:266-292).  List iteration is expressed as `map`
plus `exceptConcat` over pure per-item results, which equals the source's
sequential loop.  The dict and list branches inline the body of
`validate_obj` (field loop, then extra-key check) because the recursion must
be structural on the schema; the `nestedListIsRole` branch likewise inlines
`is_role` (lint_yaml.py:164-177). -/
def fieldPresent (value : Value) (vals : Validators) (fld pstr : String) : Except PyErr (List String) :=
  match vals with
  | .preds ps => runPreds ps value pstr fld
  | .nestedDict sub => do
      -- validate_obj(value, validators, [field])
      let errs ← goFields value sub (prefixString [fld])
      let extras ← extraKeyErrors value sub (prefixString [fld])
      pure (errs ++ extras)
  | .nestedList sub => do
      let items ← pyIter value
      exceptConcat (items.enum.map (fun p => do
        -- validate_obj(item, validators.subschema, [field, str(index)])
        let errs ← goFields p.2 sub (prefixString [fld, toString p.1])
        let extras ← extraKeyErrors p.2 sub (prefixString [fld, toString p.1])
        pure (errs ++ extras)))
  | .nestedListIsRole leg exec => do
      let items ← pyIter value
      exceptConcat (items.enum.map (fun p => do
        -- ".".join([field, str(index)]) + ": " + e  for e in is_role(item)
        let msgs ←
          match p.2 with
          | .vmap m =>
              let rt := (lookupStr m "type").getD .vnone
              if isLegislativeType rt then do
                let errs ← goFields (.vmap m) leg (prefixString [])
                let extras ← extraKeyErrors (.vmap m) leg (prefixString [])
                pure (errs ++ extras)
              else if isExecutiveType rt then do
                let errs ← goFields (.vmap m) exec (prefixString [])
                let extras ← extraKeyErrors (.vmap m) exec (prefixString [])
                pure (errs ++ extras)
              else (.ok ["invalid type"] : Except PyErr (List String))
          | _ => .error (.attributeError "get")
        pure (msgs.map (fun e => joinDots [fld, toString p.1] ++ ": " ++ e))))

end

/-- Python `validate_obj(obj, schema, prefix)` (lint_yaml.py:246-298): the field loop
followed by the extra-key check. -/
def validate_obj (obj : Value) (schema : Schema) (pfx : List String) : Except PyErr (List String) := do
  let errs ← goFields obj schema (prefixString pfx)
  let extras ← extraKeyErrors obj schema (prefixString pfx)
  pure (errs ++ extras)

/-- The body of one iteration of the field loop for field `fld` of record `m`:
`obj.get(field, Missing)` then the missing/present split.  `goFields` runs
exactly this per field. -/
def fieldStep (m : List (String × Value)) (fld : String) (vals : Validators) (pstr : String) : Except PyErr (List String) :=
  match lookupStr m fld with
  | none => fieldMissing fld vals pstr
  | some value => fieldPresent value vals fld pstr

/-- Python `is_role(role)` (lint_yaml.py:164-177). -/
def is_role (role : Value) : Except PyErr (List String) :=
  match role with
  | .vmap m =>
      let rt := (lookupStr m "type").getD .vnone
      if isLegislativeType rt then validate_obj (.vmap m) LEGISLATIVE_ROLE_FIELDS []
      else if isExecutiveType rt then validate_obj (.vmap m) EXECUTIVE_ROLE_FIELDS []
      else .ok ["invalid type"]
  | _ => .error (.attributeError "get")

/-! ### Domain rule engine -/

/-- Strict lexicographic order on character lists (by code point): the order
Python uses on strings, hence on ISO dates chronological. -/
def listLexLt : List Char → List Char → Bool
  | [], [] => false
  | [], _ :: _ => true
  | _ :: _, [] => false
  | a :: as, b :: bs => if a == b then listLexLt as bs else decide (a.toNat < b.toNat)

/-- Non-strict lexicographic order on character lists. -/
def listLexLe : List Char → List Char → Bool
  | [], _ => true
  | _ :: _, [] => false
  | a :: as, b :: bs => if a == b then listLexLe as bs else decide (a.toNat < b.toNat)

/-- Python `a < b` on date strings. -/
def dateLt (a b : String) : Bool := listLexLt a.toList b.toList

/-- Python `a <= b` on date strings. -/
def dateLe (a b : String) : Bool := listLexLe a.toList b.toList

/-- Modelled from the spec: `role_is_active` is imported from `utils`, which
is not among the sources under verification.  Spec section 3: a role (or party
membership) is active iff the as-of date falls within
`[start_date, end_date]`, open-ended bounds treated as minus/plus infinity.
Dates are ISO-format strings (structured dates carry their ISO string)
compared lexicographically, which on such strings is chronological order; a
missing or non-date bound is open. -/
def role_is_active (role : Value) (asOf : String) : Bool :=
  (match role with
   | .vmap m =>
       match lookupStr m "start_date" with
       | some (.str s) => dateLe s asOf
       | some (.date s) => dateLe s asOf
       | _ => true
   | _ => true) &&
  (match role with
   | .vmap m =>
       match lookupStr m "end_date" with
       | some (.str e) => dateLe asOf e
       | some (.date e) => dateLe asOf e
       | _ => true
   | _ => true)

/-- Python `validate_roles(person, roles_key, retired, date)` (lint_yaml.py:301-309).
`today` is the ambient `datetime.date.today()` consulted by the activity check
when no explicit as-of date is given. -/
def validate_roles (person : Value) (roles_key : String) (retired : Bool)
    (date : Option String) (today : String) : Except PyErr (List String) := do
  let asOf := date.getD today
  let rv ← pyGetDefault person roles_key (.vlist [])
  let roles ← pyIter rv
  let active := roles.filter (fun r => role_is_active r asOf)
  if active.length == 0 && !retired then
    pure ["no active " ++ roles_key]
  else if roles_key == "roles" && retired && active.length > 0 then
    pure [toString active.length ++ " active roles on retired person"]
  else if roles_key == "roles" && active.length > 1 then
    pure [toString active.length ++ " active roles"]
  else
    pure []

/-- Python `Counter` increment (`type_counter[office["note"]] += 1`). -/
def counterInc : List (Value × Nat) → Value → List (Value × Nat)
  | [], k => [(k, 1)]
  | (k2, n) :: rest, k =>
      if k2 == k then (k2, n + 1) :: rest else (k2, n) :: counterInc rest k

/-- Python `Counter` lookup (missing keys count 0). -/
def counterGet : List (Value × Nat) → Value → Nat
  | [], _ => 0
  | (k2, n) :: rest, k => if k2 == k then n else counterGet rest k

/-- Lookup in the `seen_values` reverse map. -/
def seenGet : List (Value × String) → Value → Option String
  | [], _ => none
  | (k2, s) :: rest, k => if k2 == k then some s else seenGet rest k

/-- Python `seen_values[value] = location_str` (replace, or append a new key). -/
def seenSet : List (Value × String) → Value → String → List (Value × String)
  | [], k, s => [(k, s)]
  | (k2, s2) :: rest, k, s =>
      if k2 == k then (k2, s) :: rest else (k2, s2) :: seenSet rest k s

/-- The inner `for key, value in office.items()` loop of `validate_offices`
(lint_yaml.py:319-328): skip the `note` key, report a value already in
`seen_values`, then overwrite its location. -/
def officeFieldsLoop (note : Value) (fields : List (String × Value))
    (seen : List (Value × String)) : List (Value × String) × List String :=
  match fields with
  | [] => (seen, [])
  | (key, value) :: rest =>
      if key == "note" then officeFieldsLoop note rest seen
      else
        let locStr := pyStr note ++ " " ++ key
        let err :=
          match seenGet seen value with
          | some old =>
              ["Value " ++ sQuote ++ pyStr value ++ sQuote ++ " used multiple times: " ++
                old ++ " and " ++ locStr]
          | none => []
        let next := officeFieldsLoop note rest (seenSet seen value locStr)
        (next.1, err ++ next.2)

/-- The outer `for office in contact_details` loop of `validate_offices`
(lint_yaml.py:317-328).  The first operation is `office["note"]`, so a
non-dict office raises `TypeError` and an office without a note `KeyError`;
`office.items()` then always succeeds. -/
def officesLoop (offices : List Value) (tc : List (Value × Nat))
    (seen : List (Value × String)) : Except PyErr (List (Value × Nat) × List String) :=
  match offices with
  | [] => .ok (tc, [])
  | office :: rest => do
      let note ← Value.getItem office "note"
      let fields ← pyItems office
      let stepped := officeFieldsLoop note fields seen
      let further ← officesLoop rest (counterInc tc note) stepped.1
      pure (further.1, stepped.2 ++ further.2)

/-- Python `validate_offices(person)` (lint_yaml.py:312-333).  The commented-out
district-office rule of the source is likewise omitted. -/
def validate_offices (person : Value) : Except PyErr (List String) := do
  let cd ← pyGetDefault person "contact_details" (.vlist [])
  let offices ← pyIter cd
  let looped ← officesLoop offices [] []
  pure (looped.2 ++
    (if counterGet looped.1 (.str "Capitol Office") > 1 then
      ["Multiple capitol offices, condense to one."]
    else []))

/-- The `for role in person.get("roles", [])` loop of `validate_jurisdictions`
(lint_yaml.py:338-345).  `metaLookup` stands for the external
`metadata.lookup(jurisdiction_id=jid)` (its `KeyError` is caught at the call
site, so only lookup success is observable). -/
def jurisLoop (metaLookup : Value → Bool) (municipalities : List String) :
    List Value → Except PyErr (List String)
  | [] => .ok []
  | role :: rest => do
      let jid ← pyGet role "jurisdiction"
      let state := metaLookup jid
      let tail ← jurisLoop metaLookup municipalities rest
      if jid.truthy && (!state && !municipalities.any (fun m2 => jid == .str m2)) then
        pure ((pyStr jid ++ " is not a valid jurisdiction_id") :: tail)
      else pure tail

/-- Python `validate_jurisdictions(person, municipalities)` (lint_yaml.py:336-346). -/
def validate_jurisdictions (metaLookup : Value → Bool) (municipalities : List String)
    (person : Value) : Except PyErr (List String) := do
  let rv ← pyGetDefault person "roles" (.vlist [])
  let roles ← pyIter rv
  jurisLoop metaLookup municipalities roles

/-- Python `NON_ENGLISH_CHARS.sub(".", s)`, one character at a time: the flag records
whether the previous character was part of a collapsed non-letter run. -/
def collapseGo : Bool → List Char → List Char
  | _, [] => []
  | inRun, c :: rest =>
      if ('a' ≤ c && c ≤ 'z') || ('A' ≤ c && c ≤ 'Z') then c :: collapseGo false rest
      else if inRun then collapseGo true rest
      else '.' :: collapseGo true rest

/-- Python `NON_ENGLISH_CHARS.sub(".", s)`: collapse each maximal run of
non-ASCII-letter characters (`[^a-zA-Z]+`) to a single dot. -/
def collapseNonAlpha (cs : List Char) : List Char := collapseGo false cs

/-- The whitespace characters of Python `str.split()` with no argument. -/
def isPyWhitespace (c : Char) : Bool :=
  c == ' ' || c == '\t' || c == '\n' || c == Char.ofNat 13 || c == Char.ofNat 11 ||
    c == Char.ofNat 12

/-- Split at every whitespace character, keeping empty pieces. -/
def splitWsAux : List Char → List (List Char)
  | [] => [[]]
  | c :: rest =>
      let r := splitWsAux rest
      if isPyWhitespace c then [] :: r
      else
        match r with
        | [] => [[c]]
        | g :: gs => (c :: g) :: gs

/-- Python `str.split()` with no argument: split on whitespace runs, no empty
tokens. -/
def pySplitWs (cs : List Char) : List (List Char) :=
  (splitWsAux cs).filter (fun g => !g.isEmpty)

/-- Does the dot-wildcard pattern match a prefix of the text (`.` is the
regex wildcard: any character but a newline)? -/
def wildMatchAt : List Char → List Char → Bool
  | [], _ => true
  | _ :: _, [] => false
  | p :: ps, t :: ts => ((p == '.' && t != '\n') || p == t) && wildMatchAt ps ts

/-- Python `re.match(".*" + pat + ".*", text)`: the pattern matches somewhere in the
text.  (The tokens matched here never contain newlines, so letting the
leading `.*` skip freely is faithful.) -/
def wildFind (ps : List Char) : List Char → Bool
  | [] => wildMatchAt ps []
  | t :: ts => wildMatchAt ps (t :: ts) || wildFind ps ts

/-- Python `names_consistent(person)` (lint_yaml.py:400-432): pass trivially without
a `family_name`; otherwise tokenize `family_name` (split on single spaces)
and `name` (split on whitespace runs), lowercase, collapse non-ASCII-letter
runs to `.` (which the subsequent regex match treats as a wildcard), and
accept when any token pair matches in either direction. -/
def names_consistent (person : Value) : Except PyErr Bool := do
  let famV ← pyGetDefault person "family_name" (.str "")
  let famLower ←
    match famV with
    | .str s => pure (lowerChars s.toList)
    | (_ : Value) => .error (.attributeError "lower")
  if famLower.isEmpty then
    pure true
  else do
    let nameV ← pyGetDefault person "name" (.str "")
    let nameLower ←
      match nameV with
      | .str s => pure (lowerChars s.toList)
      | (_ : Value) => .error (.attributeError "lower")
    let names := (pySplitWs nameLower).map collapseNonAlpha
    pure ((splitOnCh ' ' famLower).any (fun fn0 =>
      let fn := collapseNonAlpha fn0
      names.any (fun n => wildFind fn n || wildFind n fn)))

/-! ### Consistency aggregator -/

/-- The expected-seats table: chamber key → district key → seat count.  Dict
keys are Python values (strings here, but the matching active-legislator
table can carry `None`), hence `Value`-typed with `Value.vnone` for `None`. -/
abbrev SeatTable := List (Value × List (Value × Int))

/-- The active-legislator table: role type → district → list of filenames. -/
abbrev ALTable := List (Value × List (Value × List String))

/-- The duplicate-value table: scheme → value → list of filenames. -/
abbrev DupTable := List (Value × List (Value × List String))

/-- Dict lookup with `Value` keys (first match; real dicts have unique keys). -/
def kvLookup {α : Type} : List (Value × α) → Value → Option α
  | [], _ => none
  | (k2, v) :: rest, k => if k2 == k then some v else kvLookup rest k

/-- Python `expected[chamber][district] -= 1`, inner dict: `KeyError` on a missing
district. -/
def decRow : List (Value × Int) → String → Except PyErr (List (Value × Int))
  | [], d => .error (.keyError d)
  | (k, n) :: rest, d =>
      if k == .str d then .ok ((k, n - 1) :: rest)
      else do
        let r ← decRow rest d
        pure ((k, n) :: r)

/-- Python `expected[chamber][district] -= 1`: `KeyError` on a missing chamber or
district. -/
def decSeat : SeatTable → String → String → Except PyErr SeatTable
  | [], c, _ => .error (.keyError c)
  | (k, row) :: rest, c, d =>
      if k == .str c then do
        let row2 ← decRow row d
        pure ((k, row2) :: rest)
      else do
        let r ← decSeat rest c d
        pure ((k, row) :: r)

/-- A configured vacancy declaration from `settings[abbr]["vacancies"]`.  The
source applies `str()` to the configured district, so it is carried here as a
string; `vacant_until` is parsed by the YAML loader as a date (ISO string
here). -/
structure Vacancy where
  chamber : String
  district : String
  vacant_until : String
deriving Repr, DecidableEq

/-- The `for vacancy in vacancies` loop of `get_expected_districts`
(lint_yaml.py:361-372): a vacancy with `today < vacant_until` decrements its
seat count; an expired one raises `BadVacancy` immediately (the terminal
echoes are reporting only and are dropped). -/
def processVacancies (expected : SeatTable) (vacancies : List Vacancy) (today : String) :
    Except PyErr SeatTable :=
  match vacancies with
  | [] => .ok expected
  | v :: rest =>
      if dateLt today v.vacant_until then do
        let e2 ← decSeat expected v.chamber v.district
        processVacancies e2 rest today
      else .error .badVacancy

/-- Python `get_expected_districts(settings, abbr)` (lint_yaml.py:349-374).  The
initial seat table is built from the external `metadata.lookup(abbr)` chamber
metadata (an excluded collaborator) and is supplied here as `initial`; the
vacancy list is `settings.get(abbr, {}).get("vacancies", [])`. -/
def get_expected_districts (initial : SeatTable) (vacancies : List Vacancy) (today : String) :
    Except PyErr SeatTable :=
  processVacancies initial vacancies today

/-- Python `repr` of a dict-keys view, as an f-string renders `expected.keys()`. -/
def dictKeysRepr (ks : List Value) : String :=
  "dict_keys([" ++ joinWith ", " (ks.map pyRepr) ++ "])"

/-- Equality of two dict key views (Python compares them as sets). -/
def keySetEq (a b : List Value) : Bool :=
  a.all (fun k => b.any (fun k2 => k2 == k)) && b.all (fun k => a.any (fun k2 => k2 == k))

/-- Key membership in a key list. -/
def keyMem (ks : List Value) (k : Value) : Bool := ks.any (fun k2 => k2 == k)

/-- Ascending insertion by code-point order. -/
def insertStr (s : String) : List String → List String
  | [] => [s]
  | t :: ts => if listLexLe s.toList t.toList then s :: t :: ts else t :: insertStr s ts

/-- Insertion sort by code-point order (what `sorted()` does to strings). -/
def sortStrs : List String → List String
  | [] => []
  | s :: ss => insertStr s (sortStrs ss)

/-- Are all keys strings?  (Returns them unwrapped.) -/
def allStrs : List Value → Option (List String)
  | [] => some []
  | .str s :: rest => (allStrs rest).map (fun ss => s :: ss)
  | _ => none

/-- Python `sorted()` over a set of dict keys.  Whenever this point is reached
in the source the keys are strings; two or more mutually incomparable keys
(e.g. `None` next to a string) raise `TypeError`, while a single key is never
compared and sorts trivially, matching CPython. -/
def sortedKeys (ks : List Value) : Except PyErr (List Value) :=
  if ks.length ≤ 1 then .ok ks
  else
    match allStrs ks with
    | some ss => .ok ((sortStrs ss).map Value.str)
    | none => .error (.typeError "unorderable keys")

/-- The district-in-both-sets comparison of `compare_districts`
(lint_yaml.py:392-397): fewer filings than expected seats is one missing
legislator error; more is one extra-legislator error listing every filing. -/
def bothDistrictErrors (chamber district : Value) (num_seats : Int) (files : List String) :
    List String :=
  (if (files.length : Int) < num_seats then
    ["missing legislator for " ++ pyStr chamber ++ " " ++ pyStr district]
  else []) ++
  (if num_seats < (files.length : Int) then
    ["extra legislator for " ++ pyStr chamber ++ " " ++ pyStr district ++ ":\n\t" ++
      joinWith "\n\t" files]
  else [])

/-- The expected-minus-actual district loop (lint_yaml.py:387-389): a missing
legislator for every expected district with a truthy (non-zero) seat count. -/
def cdMissing (chamber : Value) (eds : List (Value × Int)) : List Value → Except PyErr (List String)
  | [] => .ok []
  | d :: ds => do
      let n ←
        match kvLookup eds d with
        | some n => pure n
        | none => .error (.keyError (pyStr d))
      let rest ← cdMissing chamber eds ds
      pure ((if n != 0 then ["missing legislator for " ++ pyStr chamber ++ " " ++ pyStr d]
             else []) ++ rest)

/-- The actual-minus-expected district loop (lint_yaml.py:390-391). -/
def cdExtraSeat (chamber : Value) (ds : List Value) : List String :=
  ds.map (fun d => "extra legislator for unexpected seat " ++ pyStr chamber ++ " " ++ pyStr d)

/-- The districts-in-both loop (lint_yaml.py:392-397).  `actual[chamber]` is an
inner `defaultdict(list)`, so its lookups default to `[]`; the plain expected
dict raises `KeyError` (never reached: the keys come from it). -/
def cdBoth (chamber : Value) (eds : List (Value × Int)) (ads : List (Value × List String)) :
    List Value → Except PyErr (List String)
  | [] => .ok []
  | d :: ds => do
      let n ←
        match kvLookup eds d with
        | some n => pure n
        | none => .error (.keyError (pyStr d))
      let files := (kvLookup ads d).getD []
      let rest ← cdBoth chamber eds ads ds
      pure (bothDistrictErrors chamber d n files ++ rest)

/-- The `for chamber in expected` loop of `compare_districts`
(lint_yaml.py:384-397), chambers in table order, districts sorted. -/
def cdChambers (actual : ALTable) : SeatTable → Except PyErr (List String)
  | [] => .ok []
  | (chamber, eds) :: rest => do
      let ads := (kvLookup actual chamber).getD []
      let edk := eds.map Prod.fst
      let adk := ads.map Prod.fst
      let missD ← sortedKeys (edk.filter (fun k => !keyMem adk k))
      let extraD ← sortedKeys (adk.filter (fun k => !keyMem edk k))
      let bothD ← sortedKeys (adk.filter (fun k => keyMem edk k))
      let errs1 ← cdMissing chamber eds missD
      let errs3 ← cdBoth chamber eds ads bothD
      let tail ← cdChambers actual rest
      pure (errs1 ++ cdExtraSeat chamber extraD ++ errs3 ++ tail)

/-- Python `compare_districts(expected, actual)` (lint_yaml.py:377-398): a chamber
key-set mismatch short-circuits with the single aggregate error naming both
key views. -/
def compare_districts (expected : SeatTable) (actual : ALTable) : Except PyErr (List String) :=
  if !keySetEq (expected.map Prod.fst) (actual.map Prod.fst) then
    .ok ["expected districts for " ++ dictKeysRepr (expected.map Prod.fst) ++ ", got " ++
      dictKeysRepr (actual.map Prod.fst)]
  else cdChambers actual expected

/-- The `", ".join` with a three-filename cap (lint_yaml.py:564-568). -/
def instanceStr (instances : List String) : String :=
  if instances.length > 3 then
    joinWith ", " (instances.take 3) ++ " and " ++ toString (instances.length - 3) ++ " more..."
  else joinWith ", " instances

/-- One `(value, instances)` entry of the duplicate table: one aggregate error
iff more than one filename registered the value (lint_yaml.py:562-569). -/
def dupEntryErrors (key value : Value) (instances : List String) : List String :=
  if instances.length > 1 then
    ["duplicate " ++ pyStr key ++ ": \"" ++ pyStr value ++ "\" " ++ instanceStr instances]
  else []

/-- The inner `for value, instances in values.items()` loop. -/
def dupValuesErrors (key : Value) : List (Value × List String) → List String
  | [] => []
  | (value, instances) :: rest => dupEntryErrors key value instances ++ dupValuesErrors key rest

/-- Python `Validator.check_duplicates(self)` (lint_yaml.py:555-570). -/
def check_duplicates : DupTable → List String
  | [] => []
  | (key, vals) :: rest => dupValuesErrors key vals ++ check_duplicates rest

/-! ### Report builder -/

/-- The result dataclass (lint_yaml.py:435-445). -/
structure ValidationResult where
  errors : List String
  errors_by_filename : List (String × List String)
  warnings_by_filename : List (String × List String)
deriving Repr, DecidableEq

/-- Python `ValidationResult.error_count` (lint_yaml.py:441-442). -/
def ValidationResult.error_count (r : ValidationResult) : Nat :=
  r.errors.length + r.errors_by_filename.length

/-- Python `dict.update`: existing keys are overwritten in place, new keys
appended in update order. -/
def updateMap (base upd : List (String × List String)) : List (String × List String) :=
  (base.map (fun p =>
    match upd.find? (fun q => q.1 == p.1) with
    | some q => (p.1, q.2)
    | none => p)) ++
  upd.filter (fun q => !base.any (fun p => p.1 == q.1))

/-- The result-building tail of `Validator.print_validation_report`
(lint_yaml.py:588-605), terminal echoes dropped: aggregate duplicate and
district errors extend the collector's unscoped errors, and only filenames
whose message list is non-empty enter the per-filename maps.  `vErrors` and
`vWarnings` are the validator's `self.errors` / `self.warnings`. -/
def print_validation_report (vErrors vWarnings : List (String × List String))
    (dv : DupTable) (expected : SeatTable) (actual : ALTable)
    (collector : ValidationResult) : Except PyErr ValidationResult := do
  let districtErrs ← compare_districts expected actual
  pure ⟨collector.errors ++ check_duplicates dv ++ districtErrs,
    updateMap collector.errors_by_filename (vErrors.filter (fun p => !p.2.isEmpty)),
    updateMap collector.warnings_by_filename (vWarnings.filter (fun p => !p.2.isEmpty))⟩

/-! ### The Validator -/

/-- The person-type tag (lint_yaml.py:34-38). -/
inductive PersonType where
  | LEGISLATIVE
  | RETIRED
  | EXECUTIVE
  | MUNICIPAL
deriving Repr, DecidableEq, BEq

/-- Read-only configuration of one batch: the settings and external
collaborators consulted by `Validator`.  `metaLookup` and `metaInitial` stand
for the external `openstates.metadata` package (an excluded collaborator).
`major_parties` and `legacy` are modelled from the spec: `MAJOR_PARTIES` and
`legacy_districts` come from `utils`, which is not among the sources under
verification (spec sections 4.3 and 6: a configured set of major party names
and a legacy-district alias table keyed by chamber type). -/
structure LintCtx where
  metaLookup : Value → Bool
  metaInitial : SeatTable
  vacancies : List Vacancy
  parties : List String
  major_parties : List String
  legacy : List (String × List String)
  municipalities : List String
  today : String

/-- The mutable state of one `Validator` (lint_yaml.py:448-466); the disabled
HTTPS whitelist is omitted with the disabled check that reads it. -/
structure VState where
  expected : SeatTable
  errors : List (String × List String)
  warnings : List (String × List String)
  active_legislators : ALTable
  duplicate_values : DupTable
deriving Repr

/-- Python `Validator.__init__` (lint_yaml.py:449-466): build the expected-seats
table — raising `BadVacancy` on an expired vacancy before any record is seen
— then re-check every municipality id against `JURISDICTION_RE`. -/
def mkValidator (ctx : LintCtx) : Except PyErr VState := do
  let expected ← get_expected_districts ctx.metaInitial ctx.vacancies ctx.today
  match ctx.municipalities.find? (fun m => !jurisdiction_re m) with
  | some m => .error (.valueError ("invalid municipality id " ++ m))
  | none => pure ⟨expected, [], [], [], []⟩

/-- Python `self.errors[filename] = msgs`: plain dict assignment (replace in place,
or append a new key). -/
def setMap (base : List (String × List String)) (fn : String) (msgs : List String) :
    List (String × List String) :=
  match base with
  | [] => [(fn, msgs)]
  | (k, v) :: rest => if k == fn then (k, msgs) :: rest else (k, v) :: setMap rest fn msgs

/-- Append to a defaultdict(list) entry, creating it if absent. -/
def appendAtKey (base : List (String × List String)) (fn : String) (msgs : List String) :
    List (String × List String) :=
  match base with
  | [] => [(fn, msgs)]
  | (k, v) :: rest => if k == fn then (k, v ++ msgs) :: rest else (k, v) :: appendAtKey rest fn msgs

/-- Python `self.warnings[filename].append(...)`: entries only come into being when a
warning is actually appended. -/
def appendWarnings (base : List (String × List String)) (fn : String) (msgs : List String) :
    List (String × List String) :=
  if msgs.isEmpty then base else appendAtKey base fn msgs

/-- Inner row of `self.duplicate_values[scheme][value].append(filename)`. -/
def dvAppendRow : List (Value × List String) → Value → String → List (Value × List String)
  | [], v, fn => [(v, [fn])]
  | (v2, fns) :: rest, v, fn =>
      if v2 == v then (v2, fns ++ [fn]) :: rest else (v2, fns) :: dvAppendRow rest v fn

/-- Python `self.duplicate_values[scheme][value].append(filename)` (nested
defaultdicts: missing keys spring into being). -/
def dvAppend : DupTable → Value → Value → String → DupTable
  | [], k, v, fn => [(k, [(v, [fn])])]
  | (k2, row) :: rest, k, v, fn =>
      if k2 == k then (k2, dvAppendRow row v fn) :: rest else (k2, row) :: dvAppend rest k v fn

/-- Python `self.active_legislators[role_type][district].append(filename)` (the same
nested-defaultdict shape as the duplicate table). -/
def alAppend (al : ALTable) (t d : Value) (fn : String) : ALTable :=
  dvAppend al t d fn

/-- The `for id in person.get("other_identifiers", [])` loop
(lint_yaml.py:511-512): `id["scheme"]` then `id["identifier"]` (each can raise
`KeyError`/`TypeError`). -/
def registerOther (dv : DupTable) (ids : List Value) (filename : String) : Except PyErr DupTable :=
  match ids with
  | [] => .ok dv
  | idv :: rest => do
      let sch ← Value.getItem idv "scheme"
      let idf ← Value.getItem idv "identifier"
      registerOther (dvAppend dv sch idf filename) rest filename

/-- The `check duplicate IDs` block of `validate_person`
(lint_yaml.py:508-512). -/
def registerIds (dv : DupTable) (person : Value) (filename : String) : Except PyErr DupTable := do
  let idsV ← pyGetDefault person "ids" (.vmap [])
  let pairs ← pyItems idsV
  let dv1 := pairs.foldl (fun acc p => dvAppend acc (.str p.1) p.2 filename) dv
  let othV ← pyGetDefault person "other_identifiers" (.vlist [])
  let lst ← pyIter othV
  registerOther dv1 lst filename

/-- The first-active-role scan of the active-legislator update
(lint_yaml.py:516-521): starting from `role_type = district = None`, the first
active role supplies `role["type"]` (which may raise `KeyError`) and
`role.get("district")` (defaulting to `None`), and the loop breaks. -/
def firstActive (roles : List Value) (asOf : String) : Except PyErr (Value × Value) :=
  match roles with
  | [] => .ok (.vnone, .vnone)
  | role :: rest =>
      if role_is_active role asOf then do
        let t ← Value.getItem role "type"
        let d ← pyGet role "district"
        pure (t, d)
      else firstActive rest asOf

/-- The `update active legislators` block of `validate_person`
(lint_yaml.py:514-522), run only for `LEGISLATIVE` records: exactly one
append, under the first active role's `(type, district)` or `(None, None)`. -/
def registerActive (al : ALTable) (person : Value) (filename : String)
    (date : Option String) (today : String) : Except PyErr ALTable := do
  let rv ← pyGetDefault person "roles" (.vlist [])
  let roles ← pyIter rv
  let td ← firstActive roles (date.getD today)
  pure (alAppend al td.1 td.2 filename)

/-- The `for party in person.get("party", [])` loop (lint_yaml.py:488-492):
an invalid-party error per unknown name, and the collection of active party
names.  Activity uses today (the source passes no as-of date here). -/
def partyLoop (ctx : LintCtx) (parties : List Value) : Except PyErr (List String × List Value) :=
  match parties with
  | [] => .ok ([], [])
  | party :: rest => do
      let nameV ← Value.getItem party "name"
      let err :=
        if ctx.parties.any (fun p => nameV == .str p) then []
        else ["invalid party " ++ pyStr nameV]
      let act := if role_is_active party ctx.today then [nameV] else []
      let tail ← partyLoop ctx rest
      pure (err ++ tail.1, act ++ tail.2)

/-- The `active party validation` block of `validate_person`
(lint_yaml.py:486-501): with more than one active party, more than one major
membership is an error, otherwise a warning.  Returns (errors, warnings). -/
def partyValidation (ctx : LintCtx) (person : Value) : Except PyErr (List String × List String) := do
  let pv ← pyGetDefault person "party" (.vlist [])
  let parties ← pyIter pv
  let looped ← partyLoop ctx parties
  let active := looped.2
  if active.length > 1 then
    if (active.filter (fun p => ctx.major_parties.any (fun mp => p == .str mp))).length > 1 then
      pure (looped.1 ++ ["multiple active major party memberships " ++ pyRepr (.vlist active)], [])
    else
      pure (looped.1, ["multiple active party memberships " ++ pyRepr (.vlist active)])
  else pure (looped.1, [])

/-- The role loop of `Validator.validate_old_district_names`
(lint_yaml.py:527-533), preserving Python's short-circuit `and`: later
subscript lookups are only evaluated when the earlier tests pass.  The legacy
table is a plain dict keyed by chamber type (`KeyError` on other keys). -/
def oldDistrictLoop (expected : SeatTable) (legacy : List (String × List String)) :
    List Value → Except PyErr (List String)
  | [] => .ok []
  | role :: rest => do
      let hasD ← pyIn (.str "district") role
      let errs ←
        if hasD then do
          let dV ← Value.getItem role "district"
          let tV ← Value.getItem role "type"
          let eds ←
            match kvLookup expected tV with
            | some eds => pure eds
            | none => .error (.keyError (pyStr tV))
          if !keyMem (eds.map Prod.fst) dV then do
            let legRow ←
              match tV with
              | .str t =>
                  match legacy.find? (fun p => p.1 == t) with
                  | some p => pure p.2
                  | none => .error (.keyError t)
              | _ => .error (.keyError (pyStr tV))
            if !legRow.any (fun d2 => dV == .str d2) then
              pure ["unknown district name: " ++ pyStr tV ++ " " ++ pyStr dV]
            else pure []
          else pure []
        else pure []
      let tail ← oldDistrictLoop expected legacy rest
      pure (errs ++ tail)

/-- Python `Validator.validate_old_district_names` (lint_yaml.py:525-534). -/
def validate_old_district_names (expected : SeatTable) (legacy : List (String × List String))
    (person : Value) : Except PyErr (List String) := do
  let rv ← pyGetDefault person "roles" (.vlist [])
  let roles ← pyIter rv
  oldDistrictLoop expected legacy roles

/-- Python `person["id"].split("/")[1]` (lint_yaml.py:470): `KeyError` on a missing
id, `AttributeError` on a non-string id, `IndexError` without a slash. -/
def uidOf (person : Value) : Except PyErr String := do
  let idv ← Value.getItem person "id"
  match idv with
  | .str s =>
      match splitOnCh '/' s.toList with
      | _ :: p :: _ => .ok (String.mk p)
      | _ => .error .indexError
  | _ => .error (.attributeError "split")

/-- Python `Validator.validate_person(self, person, filename, person_type, date)`
(lint_yaml.py:468-522), as a state transformer over `VState`: schema
validation, id-in-filename, name consistency, jurisdictions, role counts,
offices, party validation, legacy district names (retired only), duplicate-id
registration, and active-legislator registration (legislative only), in the
source's order.  A raise anywhere surfaces as the `Except` error. -/
def validate_person (ctx : LintCtx) (st : VState) (person : Value) (filename : String)
    (person_type : PersonType) (date : Option String) : Except PyErr VState := do
  let schemaErrs ← validate_obj person PERSON_FIELDS []
  let uid ← uidOf person
  let uidErrs :=
    if containsSub uid.toList filename.toList then []
    else ["id piece " ++ uid ++ " not in filename"]
  let nc ← names_consistent person
  let ncErrs ←
    if nc then pure []
    else do
      let famV ← pyGetDefault person "family_name" (.str "")
      let nameV ← pyGetDefault person "name" (.str "")
      pure ["inconsistent names: family_name=" ++ sQuote ++ pyStr famV ++ sQuote ++
        ", name=" ++ sQuote ++ pyStr nameV ++ sQuote]
  let jErrs ← validate_jurisdictions ctx.metaLookup ctx.municipalities person
  let rErrs ← validate_roles person "roles" (person_type == .RETIRED) date ctx.today
  let pErrs ←
    if person_type == .LEGISLATIVE || person_type == .EXECUTIVE then
      validate_roles person "party" false none ctx.today
    else pure []
  let oErrs ← validate_offices person
  let pa ← partyValidation ctx person
  let odErrs ←
    if person_type == .RETIRED then
      validate_old_district_names st.expected ctx.legacy person
    else pure []
  let dv ← registerIds st.duplicate_values person filename
  let al ←
    if person_type == .LEGISLATIVE then
      registerActive st.active_legislators person filename date ctx.today
    else pure st.active_legislators
  pure ⟨st.expected,
    setMap st.errors filename
      (schemaErrs ++ uidErrs ++ ncErrs ++ jErrs ++ rErrs ++ pErrs ++ oErrs ++ pa.1 ++ odErrs),
    appendWarnings st.warnings filename pa.2,
    al, dv⟩

/-! ### Observations used by the theorems -/

/-- Is the value a dict? -/
def Value.isVMap : Value → Bool
  | .vmap _ => true
  | _ => false

/-- The social-handle predicate as the spec words it (for comparison with the
source's `is_social`): a single-line string that does not begin with a URL
scheme (`http://`, `https://`, `ftp://`) and does not begin with `@`. -/
def spec_is_social (s : String) : Bool :=
  !(s.toList.contains '\n') &&
    !("http://".toList.isPrefixOf s.toList) && !("https://".toList.isPrefixOf s.toList) &&
    !("ftp://".toList.isPrefixOf s.toList) && !("@".toList.isPrefixOf s.toList)

/-- Python `len(active)` of `validate_roles`: the number of roles active as of a
date. -/
def activeCount (roles : List Value) (asOf : String) : Nat :=
  (roles.filter (fun r => role_is_active r asOf)).length

/-- The chained lookup `expected[c][d]` as an observation on seat tables. -/
def seatLookup (e : SeatTable) (c d : String) : Option Int :=
  match kvLookup e (.str c) with
  | some row => kvLookup row (.str d)
  | none => none

/-- Total number of filename registrations in an active-legislator table. -/
def countFiles (al : ALTable) : Nat :=
  (al.map (fun row => (row.2.map (fun vi => vi.2.length)).sum)).sum

/-- The spec's Validation Result invariant: a filename appears in the
error/warning maps only with a non-empty list. -/
def resultInvariant (r : ValidationResult) : Prop :=
  (∀ p ∈ r.errors_by_filename, p.2 ≠ []) ∧ (∀ p ∈ r.warnings_by_filename, p.2 ≠ [])

/-! ## Helper lemmas -/

theorem exbind_ok {ε α β : Type} (a : α) (f : α → Except ε β) :
    (Except.ok a >>= f) = f a := rfl

theorem exbind_error {ε α β : Type} (e : ε) (f : α → Except ε β) :
    ((Except.error e : Except ε α) >>= f) = .error e := rfl

theorem exmap_ok {ε α β : Type} (a : α) (f : α → β) :
    (f <$> (Except.ok a : Except ε α)) = .ok (f a) := rfl

theorem exmap_error {ε α β : Type} (e : ε) (f : α → β) :
    (f <$> (Except.error e : Except ε α)) = .error e := rfl

theorem expure {ε α : Type} (a : α) : (pure a : Except ε α) = .ok a := rfl

theorem beq_str_eq (k : Value) (s : String) (h : (k == Value.str s) = true) :
    k = Value.str s := by
  cases k with
  | str t => exact congrArg Value.str (eq_of_beq h)
  | int n => exact Bool.noConfusion h
  | bool b => exact Bool.noConfusion h
  | date d => exact Bool.noConfusion h
  | vnone => exact Bool.noConfusion h
  | vlist l => exact Bool.noConfusion h
  | vmap m => exact Bool.noConfusion h

theorem beq_vnone_eq (k : Value) (h : (k == Value.vnone) = true) : k = Value.vnone := by
  cases k with
  | vnone => rfl
  | str t => exact Bool.noConfusion h
  | int n => exact Bool.noConfusion h
  | bool b => exact Bool.noConfusion h
  | date d => exact Bool.noConfusion h
  | vlist l => exact Bool.noConfusion h
  | vmap m => exact Bool.noConfusion h

theorem hasRequired_iff (ps : List LeafPred) : hasRequired ps = true ↔ LeafPred.required ∈ ps := by
  induction ps with
  | nil => simp [hasRequired]
  | cons p rest ih => cases p <;> simp_all [hasRequired]

/-! ## The claims -/

/-- C4 counterexample: the claim states that `is_social` rejects every string
beginning with a URL scheme, `ftp://` included; the source omits `ftp://`
from the exclusion tuple, so `"ftp://x"` is accepted while the spec's wording
(`spec_is_social`) rejects it. -/
theorem c4_counterexample :
    is_social (Value.str "ftp://x") = true ∧ spec_is_social "ftp://x" = false := by
  decide

/-- C4 (amended): for every string value, the social-handle predicate
`is_social` returns true iff the value is a single-line string that does not
begin with `http://`, `https://`, or `@` — strings beginning with `ftp://`
are not excluded. -/
theorem c4_amended (s : String) :
    is_social (Value.str s) =
      (!(s.toList.contains '\n') && !("http://".toList.isPrefixOf s.toList) &&
        !("https://".toList.isPrefixOf s.toList) && !("@".toList.isPrefixOf s.toList)) := by
  simp only [is_social, is_string, strStartsWithAny, List.any_cons, List.any_nil,
    Bool.or_false, Bool.not_or, Bool.and_assoc]

/-- C3: for every record and declared field absent from it, the per-field
step of `validate_obj` emits exactly the one error `"<path>.<field> missing"`
and runs no other predicate when `Required` is among the field's predicates,
and contributes no errors and no recursion otherwise; concretely, a person
record omitting only the required `id` field yields exactly that one missing
error from `validate_obj`. -/
theorem c3_missing_fields (m : List (String × Value)) (fld pstr : String) (vals : Validators)
    (hmiss : lookupStr m fld = none) :
    (∀ ps, vals = Validators.preds ps → LeafPred.required ∈ ps →
      fieldStep m fld vals pstr = .ok [pstr ++ fld ++ " missing"]) ∧
    ((∀ ps, vals = Validators.preds ps → LeafPred.required ∉ ps) →
      fieldStep m fld vals pstr = .ok []) ∧
    validate_obj (Value.vmap [("name", Value.str "Jane Smith")]) PERSON_FIELDS [] =
      .ok ["id missing"] := by
  refine ⟨?_, ?_, by decide⟩
  · intro ps hv hr
    subst hv
    simp [fieldStep, hmiss, fieldMissing, (hasRequired_iff ps).mpr hr]
  · intro hnr
    cases vals with
    | preds ps =>
        have : hasRequired ps = false := by
          cases h : hasRequired ps with
          | false => rfl
          | true => exact absurd ((hasRequired_iff ps).mp h) (hnr ps rfl)
        simp [fieldStep, hmiss, fieldMissing, this]
    | nestedDict sub => simp [fieldStep, hmiss, fieldMissing]
    | nestedList sub => simp [fieldStep, hmiss, fieldMissing]
    | nestedListIsRole leg exec => simp [fieldStep, hmiss, fieldMissing]

/-- C3 witness: the missing-field step at concrete inputs. -/
theorem c3_witness :
    fieldStep [] "id" (Validators.preds [.isOcdPersonP, .required]) "" = .ok ["id missing"] ∧
    fieldStep [] "sort_name" (Validators.preds [.isStringP]) "" = .ok [] := by
  constructor
  · exact (c3_missing_fields [] "id" "" _ rfl).1 _ rfl (by decide)
  · refine (c3_missing_fields [] "sort_name" "" _ rfl).2.1 ?_
    intro ps h
    injection h with h2
    subst h2
    decide

/-- C5: `validate_roles` with the record's role list present — zero active
roles on a non-retired record yields the single "no active <key>" error; for
the `"roles"` key only, a retired record with at least one active role errors
and a non-retired record with more than one active role errors; otherwise no
errors: in particular the `"roles"` steady state (non-retired with exactly one
active role) and a retired record with zero active roles are error-free, and
for any other key (in particular `"party"`) there is no upper-bound error.
A record without the key behaves as zero active roles. -/
theorem c5_validate_roles (m : List (String × Value)) (roles : List Value) (roles_key : String)
    (retired : Bool) (date : Option String) (today : String) :
    (lookupStr m roles_key = some (Value.vlist roles) →
      (activeCount roles (date.getD today) = 0 → retired = false →
        validate_roles (Value.vmap m) roles_key retired date today =
          .ok ["no active " ++ roles_key]) ∧
      (roles_key = "roles" → retired = true → 1 ≤ activeCount roles (date.getD today) →
        validate_roles (Value.vmap m) roles_key retired date today =
          .ok [toString (activeCount roles (date.getD today)) ++
            " active roles on retired person"]) ∧
      (roles_key = "roles" → retired = false → 2 ≤ activeCount roles (date.getD today) →
        validate_roles (Value.vmap m) roles_key retired date today =
          .ok [toString (activeCount roles (date.getD today)) ++ " active roles"]) ∧
      (roles_key = "roles" → retired = false → activeCount roles (date.getD today) = 1 →
        validate_roles (Value.vmap m) roles_key retired date today = .ok []) ∧
      (roles_key = "roles" → retired = true → activeCount roles (date.getD today) = 0 →
        validate_roles (Value.vmap m) roles_key retired date today = .ok []) ∧
      (roles_key ≠ "roles" → (retired = true ∨ 1 ≤ activeCount roles (date.getD today)) →
        validate_roles (Value.vmap m) roles_key retired date today = .ok [])) ∧
    (lookupStr m roles_key = none →
      validate_roles (Value.vmap m) roles_key retired date today =
        .ok (if retired then [] else ["no active " ++ roles_key])) := by
  constructor
  · intro h
    refine ⟨?_, ?_, ?_, ?_, ?_, ?_⟩
    · intro h0 hr
      subst hr
      unfold activeCount at h0
      simp [validate_roles, pyGetDefault, h, pyIter, exbind_ok, exmap_ok, expure, h0]
    · intro hk hr h1
      subst hk; subst hr
      unfold activeCount at h1 ⊢
      have hpos : 0 < (roles.filter (fun r => role_is_active r (date.getD today))).length := h1
      simp [validate_roles, pyGetDefault, h, pyIter, exbind_ok, exmap_ok, expure, hpos]
    · intro hk hr h2
      subst hk; subst hr
      unfold activeCount at h2 ⊢
      have h0 : ((roles.filter (fun r => role_is_active r (date.getD today))).length == 0)
          = false := by
        cases hb : ((roles.filter (fun r => role_is_active r (date.getD today))).length == 0) with
        | false => rfl
        | true => exact absurd (eq_of_beq hb) (by omega)
      have h1 : 1 < (roles.filter (fun r => role_is_active r (date.getD today))).length := h2
      simp [validate_roles, pyGetDefault, h, pyIter, exbind_ok, exmap_ok, expure, h0, h1]
    · intro hk hr h1
      subst hk; subst hr
      unfold activeCount at h1
      simp [validate_roles, pyGetDefault, h, pyIter, exbind_ok, exmap_ok, expure, h1]
    · intro hk hr h0
      subst hk; subst hr
      unfold activeCount at h0
      simp [validate_roles, pyGetDefault, h, pyIter, exbind_ok, exmap_ok, expure, h0]
    · intro hk hor
      rcases hor with hr | h1
      · subst hr
        simp [validate_roles, pyGetDefault, h, pyIter, exbind_ok, exmap_ok, expure, hk]
      · unfold activeCount at h1
        have h0 : ((roles.filter (fun r => role_is_active r (date.getD today))).length == 0)
            = false := by
          cases hb : ((roles.filter (fun r => role_is_active r (date.getD today))).length == 0) with
          | false => rfl
          | true => exact absurd (eq_of_beq hb) (by omega)
        simp [validate_roles, pyGetDefault, h, pyIter, exbind_ok, exmap_ok, expure, hk, h0]
  · intro h
    cases retired <;>
      simp [validate_roles, pyGetDefault, h, pyIter, exbind_ok, exmap_ok, expure]

/-- C5 witness: `validate_roles` at concrete inputs — an empty role list on a
non-retired record errors; the steady state (non-retired, exactly one active
role) and a retired record with no active role are error-free under the
`"roles"` key; and two simultaneously active party memberships produce no
upper-bound error under the `"party"` key. -/
theorem c5_witness :
    validate_roles (Value.vmap [("roles", Value.vlist [])]) "roles" false none "2020-06-01" =
      .ok ["no active roles"] ∧
    validate_roles (Value.vmap [("roles", Value.vlist
      [Value.vmap [("type", Value.str "upper")]])]) "roles" false none "2020-06-01" =
      .ok [] ∧
    validate_roles (Value.vmap [("roles", Value.vlist [])]) "roles" true none "2020-06-01" =
      .ok [] ∧
    validate_roles (Value.vmap [("party", Value.vlist
      [Value.vmap [("name", Value.str "Democratic")],
       Value.vmap [("name", Value.str "Green")]])]) "party" false none "2020-06-01" =
      .ok [] := by
  refine ⟨?_, ?_, ?_, ?_⟩
  · exact ((c5_validate_roles [("roles", Value.vlist [])] [] "roles" false none
      "2020-06-01").1 rfl).1 (by decide) rfl
  · exact ((c5_validate_roles
      [("roles", Value.vlist [Value.vmap [("type", Value.str "upper")]])]
      [Value.vmap [("type", Value.str "upper")]] "roles" false none
      "2020-06-01").1 rfl).2.2.2.1 rfl rfl (by decide)
  · exact ((c5_validate_roles [("roles", Value.vlist [])] [] "roles" true none
      "2020-06-01").1 rfl).2.2.2.2.1 rfl rfl (by decide)
  · exact ((c5_validate_roles
      [("party", Value.vlist [Value.vmap [("name", Value.str "Democratic")],
        Value.vmap [("name", Value.str "Green")]])]
      [Value.vmap [("name", Value.str "Democratic")], Value.vmap [("name", Value.str "Green")]]
      "party" false none "2020-06-01").1 rfl).2.2.2.2.2 (by decide) (Or.inr (by decide))

theorem dupValuesErrors_length (key : Value) (vals : List (Value × List String)) :
    (dupValuesErrors key vals).length =
      (vals.filter (fun vi => decide (1 < vi.2.length))).length := by
  induction vals with
  | nil => rfl
  | cons vi rest ih =>
      cases vi with
      | mk v inst =>
          by_cases hgt : 1 < inst.length
          · simp [dupValuesErrors, dupEntryErrors, hgt, ih]
          · simp [dupValuesErrors, dupEntryErrors, hgt, ih]

theorem check_duplicates_length (dv : DupTable) :
    (check_duplicates dv).length =
      (dv.map (fun kv => (kv.2.filter (fun vi => decide (1 < vi.2.length))).length)).sum := by
  induction dv with
  | nil => rfl
  | cons kv rest ih =>
      cases kv with
      | mk key vals => simp [check_duplicates, dupValuesErrors_length, ih]

/-- C8: duplicate-value reconciliation — a `(scheme, value)` key with at most
one registered filename contributes no error; a key with more than one
contributes exactly the one aggregate error (so the total error count is the
number of duplicated keys); with more than three filenames the message lists
the first three and summarizes the rest as a count; concretely, registering
`("legacy_openstates", "ABL123456")` under two filenames produces exactly one
aggregate error naming both. -/
theorem c8_check_duplicates :
    (∀ (key value : Value) (instances : List String), instances.length ≤ 1 →
      dupEntryErrors key value instances = []) ∧
    (∀ (key value : Value) (instances : List String), 2 ≤ instances.length →
      dupEntryErrors key value instances =
        ["duplicate " ++ pyStr key ++ ": \"" ++ pyStr value ++ "\" " ++ instanceStr instances]) ∧
    (∀ instances : List String, 4 ≤ instances.length →
      instanceStr instances =
        joinWith ", " (instances.take 3) ++ " and " ++ toString (instances.length - 3) ++
          " more...") ∧
    (∀ dv : DupTable, (check_duplicates dv).length =
      (dv.map (fun kv => (kv.2.filter (fun vi => decide (1 < vi.2.length))).length)).sum) ∧
    check_duplicates [(.str "legacy_openstates", [(.str "ABL123456", ["a.yml", "b.yml"])])] =
      ["duplicate legacy_openstates: \"ABL123456\" a.yml, b.yml"] := by
  refine ⟨?_, ?_, ?_, check_duplicates_length, by decide⟩
  · intro key value instances hle
    have hn : ¬(1 < instances.length) := by omega
    simp [dupEntryErrors, hn]
  · intro key value instances hge
    have hgt : 1 < instances.length := by omega
    simp [dupEntryErrors, hgt]
  · intro instances hge
    have hgt : 3 < instances.length := by omega
    simp [instanceStr, hgt]

/-- C8 witness: the per-entry pieces at concrete inputs. -/
theorem c8_witness :
    dupEntryErrors (.str "twitter") (.str "h") ["a.yml"] = [] ∧
    dupEntryErrors (.str "twitter") (.str "h") ["a.yml", "b.yml"] =
      ["duplicate twitter: \"h\" " ++ instanceStr ["a.yml", "b.yml"]] ∧
    instanceStr ["a.yml", "b.yml", "c.yml", "d.yml", "e.yml"] =
      joinWith ", " ["a.yml", "b.yml", "c.yml"] ++ " and " ++ toString 2 ++ " more..." := by
  refine ⟨?_, ?_, ?_⟩
  · exact c8_check_duplicates.1 _ _ _ (by decide)
  · exact c8_check_duplicates.2.1 _ _ _ (by decide)
  · have h := c8_check_duplicates.2.2.1 ["a.yml", "b.yml", "c.yml", "d.yml", "e.yml"] (by decide)
    simpa using h

/-- C7: seat reconciliation for a district present in both tables with the
chamber key sets equal — fewer filings than the expected seat count emits
exactly the one "missing legislator" error, more filings emit exactly the one
"extra legislator" error listing every filename; concretely, expected seats 2
with 1 filing yields one missing-legislator error, and with 3 filings yields
one extra-legislator error listing all 3 filenames. -/
theorem c7_compare_districts :
    (∀ (chamber district : Value) (n : Int) (files : List String),
      ((files.length : Int) < n →
        bothDistrictErrors chamber district n files =
          ["missing legislator for " ++ pyStr chamber ++ " " ++ pyStr district]) ∧
      (n < (files.length : Int) →
        bothDistrictErrors chamber district n files =
          ["extra legislator for " ++ pyStr chamber ++ " " ++ pyStr district ++ ":\n\t" ++
            joinWith "\n\t" files])) ∧
    compare_districts [(.str "legislature", [(.str "district-1", 2)])]
      [(.str "legislature", [(.str "district-1", ["a.yml"])])] =
      .ok ["missing legislator for legislature district-1"] ∧
    compare_districts [(.str "legislature", [(.str "district-1", 2)])]
      [(.str "legislature", [(.str "district-1", ["a.yml", "b.yml", "c.yml"])])] =
      .ok ["extra legislator for legislature district-1:\n\ta.yml\n\tb.yml\n\tc.yml"] := by
  refine ⟨?_, by decide, by decide⟩
  intro chamber district n files
  constructor
  · intro hlt
    have hn : ¬(n < (files.length : Int)) := by omega
    simp [bothDistrictErrors, hlt, hn]
  · intro hgt
    have hn : ¬((files.length : Int) < n) := by omega
    simp [bothDistrictErrors, hgt, hn]

/-- C7 witness: the in-both-district comparison at concrete inputs. -/
theorem c7_witness :
    bothDistrictErrors (.str "upper") (.str "3") 2 ["x.yml"] =
      ["missing legislator for upper 3"] ∧
    bothDistrictErrors (.str "upper") (.str "3") 1 ["x.yml", "y.yml"] =
      ["extra legislator for upper 3:\n\t" ++ joinWith "\n\t" ["x.yml", "y.yml"]] := by
  constructor
  · exact (c7_compare_districts.1 _ _ 2 ["x.yml"]).1 (by decide)
  · exact (c7_compare_districts.1 _ _ 1 ["x.yml", "y.yml"]).2 (by decide)

theorem listLexLt_asymm : ∀ as bs : List Char, listLexLt as bs = true → listLexLt bs as = false := by
  intro as
  induction as with
  | nil =>
      intro bs h
      cases bs with
      | nil => simp [listLexLt] at h
      | cons b bs2 => simp [listLexLt]
  | cons a as2 ih =>
      intro bs h
      cases bs with
      | nil => simp [listLexLt] at h
      | cons b bs2 =>
          simp only [listLexLt] at h ⊢
          by_cases hab : a = b
          · subst hab
            simp at h ⊢
            exact ih bs2 h
          · have h1 : (a == b) = false := by simp [hab]
            have h2 : (b == a) = false := by simp [Ne.symm hab]
            rw [h1] at h
            rw [h2]
            simp only [if_neg Bool.false_ne_true] at h ⊢
            have h3 := of_decide_eq_true h
            apply decide_eq_false
            omega

theorem dateLt_asymm (a b : String) (h : dateLt a b = true) : dateLt b a = false :=
  listLexLt_asymm a.toList b.toList h

theorem decRow_ok : ∀ (row : List (Value × Int)) (d : String) (n : Int),
    kvLookup row (.str d) = some n →
    ∃ row2, decRow row d = .ok row2 ∧ kvLookup row2 (.str d) = some (n - 1) ∧
      ∀ d2 : String, d2 ≠ d → kvLookup row2 (.str d2) = kvLookup row (.str d2) := by
  intro row d
  induction row with
  | nil => intro n h; simp [kvLookup] at h
  | cons kv rest ih =>
      intro n h
      cases kv with
      | mk k v =>
          cases hk : (k == Value.str d) with
          | true =>
              have hkeq : k = Value.str d := beq_str_eq k d hk
              subst hkeq
              have hv : v = n := by simpa [kvLookup, hk] using h
              subst hv
              refine ⟨(Value.str d, v - 1) :: rest, ?_, ?_, ?_⟩
              · simp [decRow, hk]
              · simp [kvLookup, hk]
              · intro d2 hne
                have hf : (Value.str d == Value.str d2) = false := by
                  cases hb : (Value.str d == Value.str d2) with
                  | false => rfl
                  | true => exact absurd (Value.str.inj (beq_str_eq _ _ hb)) (Ne.symm hne)
                simp [kvLookup, hf]
          | false =>
              have h2 : kvLookup rest (.str d) = some n := by simpa [kvLookup, hk] using h
              obtain ⟨row2, hdec, hsel, hoth⟩ := ih n h2
              refine ⟨(k, v) :: row2, ?_, ?_, ?_⟩
              · simp [decRow, hk, hdec, exbind_ok, expure]
              · simp [kvLookup, hk, hsel]
              · intro d2 hne
                cases hk2 : (k == Value.str d2) with
                | true => simp [kvLookup, hk2]
                | false => simp [kvLookup, hk2, hoth d2 hne]

theorem decSeat_ok : ∀ (e : SeatTable) (c d : String) (n : Int),
    seatLookup e c d = some n →
    ∃ e2, decSeat e c d = .ok e2 ∧ seatLookup e2 c d = some (n - 1) ∧
      ∀ c2 d2 : String, ¬(c2 = c ∧ d2 = d) → seatLookup e2 c2 d2 = seatLookup e c2 d2 := by
  intro e c d
  induction e with
  | nil => intro n h; simp [seatLookup, kvLookup] at h
  | cons kr rest ih =>
      intro n h
      cases kr with
      | mk k row =>
          cases hk : (k == Value.str c) with
          | true =>
              have hkeq : k = Value.str c := beq_str_eq k c hk
              subst hkeq
              have hrow : kvLookup row (.str d) = some n := by
                simpa [seatLookup, kvLookup, hk] using h
              obtain ⟨row2, hdec, hsel, hoth⟩ := decRow_ok row d n hrow
              refine ⟨(Value.str c, row2) :: rest, ?_, ?_, ?_⟩
              · simp [decSeat, hk, hdec, exbind_ok, expure]
              · simp [seatLookup, kvLookup, hk, hsel]
              · intro c2 d2 hne
                cases hk2 : (Value.str c == Value.str c2) with
                | true =>
                    have hc : c = c2 := Value.str.inj (beq_str_eq _ _ hk2)
                    subst hc
                    have hd : d2 ≠ d := by
                      intro hdd
                      exact hne ⟨rfl, hdd⟩
                    simp [seatLookup, kvLookup, hk2, hoth d2 hd]
                | false => simp [seatLookup, kvLookup, hk2]
          | false =>
              have h2 : seatLookup rest c d = some n := by
                simpa [seatLookup, kvLookup, hk] using h
              obtain ⟨e2, hdec, hsel, hoth⟩ := ih n h2
              refine ⟨(k, row) :: e2, ?_, ?_, ?_⟩
              · simp [decSeat, hk, hdec, exbind_ok, expure]
              · simp only [seatLookup, kvLookup, hk]
                exact hsel
              · intro c2 d2 hne
                cases hk2 : (k == Value.str c2) with
                | true => simp [seatLookup, kvLookup, hk2]
                | false =>
                    simp only [seatLookup, kvLookup, hk2]
                    exact hoth c2 d2 hne

/-- C6: for a vacancy declaration whose (chamber, district) has a seat count
in the expected table — if `vacant_until` is in the future the table's entry
is decremented by exactly one, every other entry is unchanged, and no error
is produced; if `vacant_until` is in the past, processing raises the distinct
`BadVacancy` failure, and `Validator.__init__` (which runs before any
record-level check can be invoked) fails the whole batch with it. -/
theorem c6_vacancy (e : SeatTable) (v : Vacancy) (today : String) (n : Int)
    (hn : seatLookup e v.chamber v.district = some n) :
    (dateLt today v.vacant_until = true →
      ∃ e2, processVacancies e [v] today = .ok e2 ∧
        seatLookup e2 v.chamber v.district = some (n - 1) ∧
        ∀ c2 d2 : String, ¬(c2 = v.chamber ∧ d2 = v.district) →
          seatLookup e2 c2 d2 = seatLookup e c2 d2) ∧
    (dateLt v.vacant_until today = true →
      processVacancies e [v] today = .error .badVacancy ∧
      ∀ ctx : LintCtx, ctx.metaInitial = e → ctx.vacancies = [v] → ctx.today = today →
        mkValidator ctx = .error .badVacancy) := by
  constructor
  · intro hfut
    obtain ⟨e2, hdec, hsel, hoth⟩ := decSeat_ok e v.chamber v.district n hn
    refine ⟨e2, ?_, hsel, hoth⟩
    simp [processVacancies, hfut, hdec, exbind_ok, expure]
  · intro hpast
    have hnf : dateLt today v.vacant_until = false := dateLt_asymm _ _ hpast
    constructor
    · simp [processVacancies, hnf]
    · intro ctx h1 h2 h3
      simp [mkValidator, get_expected_districts, h1, h2, h3, processVacancies, hnf, exbind_error]

/-- C6 witness: one future vacancy decrements the seat count; one expired
vacancy aborts. -/
theorem c6_witness :
    (∃ e2, processVacancies [(.str "lower", [(.str "5", 3)])]
        [⟨"lower", "5", "2021-01-01"⟩] "2020-06-01" = .ok e2 ∧
      seatLookup e2 "lower" "5" = some 2) ∧
    processVacancies [(.str "lower", [(.str "5", 3)])]
        [⟨"lower", "5", "2020-01-01"⟩] "2020-06-01" = .error .badVacancy := by
  constructor
  · obtain ⟨e2, h1, h2, _⟩ :=
      (c6_vacancy [(.str "lower", [(.str "5", 3)])] ⟨"lower", "5", "2021-01-01"⟩
        "2020-06-01" 3 (by decide)).1 (by decide)
    exact ⟨e2, h1, h2⟩
  · exact ((c6_vacancy [(.str "lower", [(.str "5", 3)])] ⟨"lower", "5", "2020-01-01"⟩
      "2020-06-01" 3 (by decide)).2 (by decide)).1

theorem updateMap_nonempty (base upd : List (String × List String))
    (hbase : ∀ q ∈ base, q.2 ≠ []) (hupd : ∀ q ∈ upd, q.2 ≠ []) :
    ∀ p ∈ updateMap base upd, p.2 ≠ [] := by
  intro p hp
  unfold updateMap at hp
  rcases List.mem_append.mp hp with hm | hf
  · obtain ⟨q, hq, hpq⟩ := List.mem_map.mp hm
    cases hfind : List.find? (fun r => r.1 == q.1) upd with
    | some r =>
        rw [hfind] at hpq
        rw [← hpq]
        exact hupd r (List.mem_of_find?_eq_some hfind)
    | none =>
        rw [hfind] at hpq
        rw [← hpq]
        exact hbase q hq
  · exact hupd p (List.mem_filter.mp hf).1

/-- C9: every Validation Result the report builder produces from a collector
already satisfying the invariant (in particular the fresh one it creates when
none is passed) again satisfies it: a filename is a key of the per-filename
error (warning) map only if its error (warning) list is non-empty. -/
theorem c9_report_invariant (vErrors vWarnings : List (String × List String)) (dv : DupTable)
    (expected : SeatTable) (actual : ALTable) (collector result : ValidationResult)
    (hc : resultInvariant collector)
    (h : print_validation_report vErrors vWarnings dv expected actual collector = .ok result) :
    resultInvariant result := by
  unfold print_validation_report at h
  cases hcd : compare_districts expected actual with
  | error e =>
      rw [hcd] at h
      simp [exbind_error] at h
  | ok errs =>
      rw [hcd] at h
      rw [exbind_ok, expure] at h
      injection h with h2
      rw [← h2]
      constructor
      · apply updateMap_nonempty
        · exact hc.1
        · intro q hq
          simpa using (List.mem_filter.mp hq).2
      · apply updateMap_nonempty
        · exact hc.2
        · intro q hq
          simpa using (List.mem_filter.mp hq).2

/-- C9 witness: the invariant of the result built from a fresh collector and
an empty batch. -/
theorem c9_witness : resultInvariant (ValidationResult.mk [] [] []) :=
  c9_report_invariant [] [] [] [] [] (ValidationResult.mk [] [] [])
    (ValidationResult.mk [] [] []) (by constructor <;> simp) rfl

theorem rowSum_dvAppendRow (row : List (Value × List String)) (d : Value) (fn : String) :
    ((dvAppendRow row d fn).map (fun vi => vi.2.length)).sum =
      (row.map (fun vi => vi.2.length)).sum + 1 := by
  induction row with
  | nil => rfl
  | cons vi rest ih =>
      cases vi with
      | mk v2 fns =>
          cases hk : (v2 == d) with
          | true => simp [dvAppendRow, hk]; omega
          | false => simp [dvAppendRow, hk, ih]; omega

theorem countFiles_alAppend (al : ALTable) (t d : Value) (fn : String) :
    countFiles (alAppend al t d fn) = countFiles al + 1 := by
  induction al with
  | nil => rfl
  | cons kr rest ih =>
      cases kr with
      | mk k row =>
          cases hk : (k == t) with
          | true =>
              simp [countFiles, alAppend, dvAppend, hk, rowSum_dvAppendRow]
              omega
          | false =>
              have ih2 := ih
              simp [countFiles, alAppend, dvAppend, hk] at ih2 ⊢
              omega

theorem firstActive_none : ∀ (roles : List Value) (asOf : String),
    (∀ r ∈ roles, role_is_active r asOf = false) →
    firstActive roles asOf = .ok (.vnone, .vnone) := by
  intro roles asOf
  induction roles with
  | nil => intro _; rfl
  | cons r rest ih =>
      intro h
      have hr := h r (List.mem_cons_self r rest)
      rw [firstActive, hr]
      simp only [Bool.false_eq_true, if_false]
      exact ih (fun x hx => h x (List.mem_cons_of_mem r hx))

theorem firstActive_first : ∀ (pre : List Value) (role : Value) (post : List Value)
    (asOf : String) (t d : Value),
    (∀ r ∈ pre, role_is_active r asOf = false) → role_is_active role asOf = true →
    Value.getItem role "type" = .ok t → pyGet role "district" = .ok d →
    firstActive (pre ++ role :: post) asOf = .ok (t, d) := by
  intro pre role post asOf t d
  induction pre with
  | nil =>
      intro _ hact ht hd
      rw [List.nil_append, firstActive, hact]
      simp [ht, hd, exbind_ok, expure]
  | cons p rest ih =>
      intro hpre hact ht hd
      have hp := hpre p (List.mem_cons_self p rest)
      rw [List.cons_append, firstActive, hp]
      simp only [Bool.false_eq_true, if_false]
      exact ih (fun x hx => hpre x (List.mem_cons_of_mem p hx)) hact ht hd

/-- C10: the active-legislator registration of `validate_person` for a
`LEGISLATIVE` record appends the filename exactly once (the table's total
registration count grows by one): under the first active role's
`(role["type"], role.get("district"))` when an active role exists, and under
`(None, None)` when none does; and whenever the actual table has the `None`
chamber key while every expected chamber key is a string, reconciliation
emits the single key-set-mismatch aggregate error and nothing else. -/
theorem c10_active_registration :
    (∀ (al : ALTable) (m : List (String × Value)) (roles : List Value) (fn : String)
        (date : Option String) (today : String) (td : Value × Value),
      lookupStr m "roles" = some (Value.vlist roles) →
      firstActive roles (date.getD today) = .ok td →
      registerActive al (Value.vmap m) fn date today = .ok (alAppend al td.1 td.2 fn)) ∧
    (∀ (roles : List Value) (asOf : String), (∀ r ∈ roles, role_is_active r asOf = false) →
      firstActive roles asOf = .ok (.vnone, .vnone)) ∧
    (∀ (pre : List Value) (role : Value) (post : List Value) (asOf : String) (t d : Value),
      (∀ r ∈ pre, role_is_active r asOf = false) → role_is_active role asOf = true →
      Value.getItem role "type" = .ok t → pyGet role "district" = .ok d →
      firstActive (pre ++ role :: post) asOf = .ok (t, d)) ∧
    (∀ (al : ALTable) (t d : Value) (fn : String),
      countFiles (alAppend al t d fn) = countFiles al + 1) ∧
    (∀ (e : SeatTable) (a : ALTable),
      keyMem (a.map Prod.fst) Value.vnone = true →
      ((e.map Prod.fst).all (fun k => !(k == Value.vnone))) = true →
      compare_districts e a =
        .ok ["expected districts for " ++ dictKeysRepr (e.map Prod.fst) ++ ", got " ++
          dictKeysRepr (a.map Prod.fst)]) := by
  refine ⟨?_, firstActive_none, firstActive_first, countFiles_alAppend, ?_⟩
  · intro al m roles fn date today td hroles hfa
    simp [registerActive, pyGetDefault, hroles, pyIter, hfa, exbind_ok, expure]
  · intro e a h1 h2
    have hB : ((a.map Prod.fst).all
        (fun k => (e.map Prod.fst).any (fun k2 => k2 == k))) = false := by
      cases hb : ((a.map Prod.fst).all (fun k => (e.map Prod.fst).any (fun k2 => k2 == k))) with
      | false => rfl
      | true =>
          obtain ⟨k, hk, hbeq⟩ := List.any_eq_true.mp h1
          have hkeq : k = Value.vnone := beq_vnone_eq k hbeq
          subst hkeq
          have hany := List.all_eq_true.mp hb Value.vnone hk
          obtain ⟨k2, hk2, hbeq2⟩ := List.any_eq_true.mp hany
          have := List.all_eq_true.mp h2 k2 hk2
          rw [hbeq2] at this
          exact Bool.noConfusion this
    have hks : keySetEq (e.map Prod.fst) (a.map Prod.fst) = false := by
      unfold keySetEq
      rw [hB]
      exact Bool.and_false _
    simp [compare_districts, hks]

/-- C10 witness: a legislative record with no active role registers under
`(None, None)`, and the resulting `None` chamber key makes reconciliation
return only the key-set-mismatch error. -/
theorem c10_witness :
    registerActive [] (Value.vmap [("roles", Value.vlist [])]) "f.yml" none "2020-01-01" =
      .ok (alAppend [] Value.vnone Value.vnone "f.yml") ∧
    compare_districts [(.str "legislature", [(.str "1", 1)])]
        [(.vnone, [(.vnone, ["f.yml"])])] =
      .ok ["expected districts for " ++ dictKeysRepr [.str "legislature"] ++ ", got " ++
        dictKeysRepr [.vnone]] := by
  constructor
  · exact c10_active_registration.1 [] [("roles", Value.vlist [])] [] "f.yml" none
      "2020-01-01" (Value.vnone, Value.vnone) rfl rfl
  · exact c10_active_registration.2.2.2.2 [(.str "legislature", [(.str "1", 1)])]
      [(.vnone, [(.vnone, ["f.yml"])])] (by decide) (by decide)

/-- C2 counterexample: the claim says a non-mapping where a mapping is
expected only stops that sub-tree and the rest of the run continues; on a
person record whose `ids` value is a plain string, `validate_obj` instead
raises `ValueError` — the whole record's validation aborts with an exception
and no error list (not even the other fields' errors) is returned. -/
theorem c2_counterexample :
    validate_obj (Value.vmap [("ids", Value.str "x")]) PERSON_FIELDS [] =
      .error (.valueError "ids. is not a dictionary") := by
  decide

/-- C2 (amended): when the schema validator finds a value that is not a
mapping where a (non-empty) nested mapping schema is expected, it raises
`ValueError` naming that branch's path; the exception propagates and aborts
validation of the whole record, rather than being recorded and skipped.
Concretely, a record with a valid-typed `id` but a non-mapping `ids` yields
the exception, discarding every other error of the record. -/
theorem c2_amended :
    (∀ (value : Value) (sub : Schema) (fld pstr : String),
      value.isVMap = false → sub ≠ [] →
      fieldPresent value (.nestedDict sub) fld pstr =
        .error (.valueError (fld ++ ". is not a dictionary"))) ∧
    validate_obj (Value.vmap [("id", Value.int 1), ("ids", Value.int 5)]) PERSON_FIELDS [] =
      .error (.valueError "ids. is not a dictionary") := by
  refine ⟨?_, by decide⟩
  intro value sub fld pstr hv hsub
  cases sub with
  | nil => exact absurd rfl hsub
  | cons f rest =>
      obtain ⟨ffld, fvals⟩ := f
      have hpfx : prefixString [fld] = fld ++ "." := by simp [prefixString, joinDots]
      cases value <;>
        simp_all [fieldPresent, goFields, Value.isVMap, exbind_error, hpfx] <;>
        (rw [String.append_assoc]; rfl)

/-- C2 witness: the amended exception behavior at a concrete non-mapping
value. -/
theorem c2_witness :
    fieldPresent (Value.int 5) (.nestedDict [("twitter", .preds [.isSocialP])]) "ids" "" =
      .error (.valueError "ids. is not a dictionary") :=
  c2_amended.1 (Value.int 5) [("twitter", .preds [.isSocialP])] "ids" "" rfl
    (fun h => List.noConfusion h)

/-- C1 counterexample: the claim says no record tree makes `validate_person`
raise — in particular records missing the id field.  On the empty record the
schema pass itself succeeds (reporting the missing `id`), but the subsequent
`person["id"]` raises `KeyError`, so the record-level validation escapes with
an exception instead of appending the failure as a string. -/
theorem c1_counterexample :
    validate_person (LintCtx.mk (fun _ => false) [] [] [] [] [] [] "2020-01-01")
      (VState.mk [] [] [] [] []) (Value.vmap []) "a.yml" .LEGISLATIVE none =
      .error (.keyError "id") := rfl

/-- C1 (amended): per-record validation is not exception-free — for every
configuration, validator state, filename, person type and as-of date,
`validate_person` on a record with no `id` field (here the empty mapping)
raises `KeyError("id")` rather than recording every failure as a string in
the error list. -/
theorem c1_amended (ctx : LintCtx) (st : VState) (fn : String) (pt : PersonType)
    (date : Option String) :
    validate_person ctx st (Value.vmap []) fn pt date = .error (.keyError "id") := rfl
